import Mathlib

/-!
Verification of the chip8 repository's instruction set, execution engine and
assembler against its specification.  Definitions are shallow embeddings of
the Rust source:
* `Instruction`, `u16FromInstruction`, `instructionFromU16` from
  `src/instructions.rs` (the `From` impls),
* the machine state and `do_instruction` from `src/lib.rs`,
* `Line`, `Program` and `fix_references` from `chip8cc/src/labels.rs`.
Machine integers are modelled as `Nat`, with wrapping made explicit exactly
where the Rust types would truncate.
-/

set_option maxRecDepth 100000

universe u

/-- `if_neg`, restated for use in the rewrite chains below. -/
theorem negIf {c : Prop} [Decidable c] {α : Sort u} {a b : α} (h : ¬c) :
    (if c then a else b) = b := if_neg h

/-- `if_pos`, restated for use in the rewrite chains below. -/
theorem posIf {c : Prop} [Decidable c] {α : Sort u} {a b : α} (h : c) :
    (if c then a else b) = a := if_pos h

namespace Chip8

/-- The instruction set, from `src/instructions.rs` (`enum Instruction`).
`Reg` fields are `u8` register indices, `Addr` fields are `u16`,
modelled as `Nat`. -/
inductive Instruction where
  | ClearScreen
  | Ret
  | Nop
  | Jump (addr : Nat)
  | Call (addr : Nat)
  | SkipEqImm (reg imm : Nat)
  | SkipNeImm (reg imm : Nat)
  | SkipEqReg (r1 r2 : Nat)
  | SetImm (reg imm : Nat)
  | AddImm (reg imm : Nat)
  | SetReg (r1 r2 : Nat)
  | OrReg (r1 r2 : Nat)
  | AndReg (r1 r2 : Nat)
  | XorReg (r1 r2 : Nat)
  | AddReg (r1 r2 : Nat)
  | SubReg (r1 r2 : Nat)
  | Rsh (r1 : Nat)
  | SubFrom (r1 r2 : Nat)
  | Lsh (r1 : Nat)
  | SkipNeReg (r1 r2 : Nat)
  | SetMemPtr (imm : Nat)
  | JumpOffset (imm : Nat)
  | Rand (reg imm : Nat)
  | Draw (x y n : Nat)
  | SkipKeyPressed (reg : Nat)
  | SkipKeyNotPressed (reg : Nat)
  | GetDelay (reg : Nat)
  | WaitForKey (reg : Nat)
  | SetDelay (reg : Nat)
  | SetSound (reg : Nat)
  | AddMemPtr (reg : Nat)
  | SetChar (reg : Nat)
  | BCD (reg : Nat)
  | RegDump (reg : Nat)
  | RegLoad (reg : Nat)
deriving DecidableEq, Repr

namespace Instruction

/-- `X!` macro: first register argument, bits 8..11. -/
def opX (w : Nat) : Nat := (w &&& 0x0F00) >>> 8

/-- `Y!` macro: second register argument, bits 4..7. -/
def opY (w : Nat) : Nat := (w &&& 0x00F0) >>> 4

/-- `N!` macro: 4-bit immediate. -/
def opN (w : Nat) : Nat := w &&& 0x000F

/-- `NN!` macro: 8-bit immediate. -/
def opNN (w : Nat) : Nat := w &&& 0x00FF

/-- `NNN!` macro: 12-bit immediate. -/
def opNNN (w : Nat) : Nat := w &&& 0x0FFF

/-- `XNN!` macro: pack a register and an 8-bit immediate. -/
def packXNN (reg imm : Nat) : Nat := (reg <<< 8) ||| imm

/-- `XY!` macro: pack two register arguments. -/
def packXY (r1 r2 : Nat) : Nat := (r1 <<< 8) ||| (r2 <<< 4)

/-- `impl From<Instruction> for u16` in `src/instructions.rs`
(lines 314-354); note it encodes `WaitForKey` as `0xFX0A`. -/
def u16FromInstruction : Instruction → Nat
  | .Nop => 0x0000
  | .ClearScreen => 0x00E0
  | .Ret => 0x00EE
  | .Jump v => 0x1000 ||| v
  | .Call v => 0x2000 ||| v
  | .SkipEqImm reg imm => 0x3000 ||| packXNN reg imm
  | .SkipNeImm reg imm => 0x4000 ||| packXNN reg imm
  | .SkipEqReg r1 r2 => 0x5000 ||| packXY r1 r2
  | .SetImm reg imm => 0x6000 ||| packXNN reg imm
  | .AddImm reg imm => 0x7000 ||| packXNN reg imm
  | .SetReg r1 r2 => 0x8000 ||| packXY r1 r2 ||| 0
  | .OrReg r1 r2 => 0x8000 ||| packXY r1 r2 ||| 1
  | .AndReg r1 r2 => 0x8000 ||| packXY r1 r2 ||| 2
  | .XorReg r1 r2 => 0x8000 ||| packXY r1 r2 ||| 3
  | .AddReg r1 r2 => 0x8000 ||| packXY r1 r2 ||| 4
  | .SubReg r1 r2 => 0x8000 ||| packXY r1 r2 ||| 5
  | .Rsh r1 => 0x8000 ||| packXY r1 0 ||| 6
  | .SubFrom r1 r2 => 0x8000 ||| packXY r1 r2 ||| 7
  | .Lsh r1 => 0x8000 ||| packXY r1 0 ||| 0xe
  | .SkipNeReg r1 r2 => 0x9000 ||| packXY r1 r2
  | .SetMemPtr imm => 0xA000 ||| imm
  | .JumpOffset imm => 0xB000 ||| imm
  | .Rand reg imm => 0xC000 ||| packXNN reg imm
  | .Draw x y n => 0xD000 ||| packXY x y ||| n
  | .SkipKeyPressed reg => 0xE09E ||| packXY reg 0
  | .SkipKeyNotPressed reg => 0xE0A1 ||| packXY reg 0
  | .GetDelay reg => 0xF007 ||| packXY reg 0
  | .WaitForKey reg => 0xF00A ||| packXY reg 0
  | .SetDelay reg => 0xF015 ||| packXY reg 0
  | .SetSound reg => 0xF018 ||| packXY reg 0
  | .AddMemPtr reg => 0xF01E ||| packXY reg 0
  | .SetChar reg => 0xF029 ||| packXY reg 0
  | .BCD reg => 0xF033 ||| packXY reg 0
  | .RegDump reg => 0xF055 ||| packXY reg 0
  | .RegLoad reg => 0xF065 ||| packXY reg 0

/-- `impl From<u16> for Instruction` in `src/instructions.rs`
(lines 398-453).  The Rust `match` on a `u16` with literal and range
patterns is rendered as an `if`-chain in source order; identical (up to
variant names `SkipKey`/`SkipNoKey`) to the decoder in `src/lib.rs`. -/
def instructionFromU16 (w : Nat) : Instruction :=
  if w = 0x00E0 then .ClearScreen
  else if w = 0x00EE then .Ret
  else if 0x1000 ≤ w ∧ w ≤ 0x1fff then .Jump (opNNN w)
  else if 0x2000 ≤ w ∧ w ≤ 0x2fff then .Call (opNNN w)
  else if 0x3000 ≤ w ∧ w ≤ 0x3fff then .SkipEqImm (opX w) (opNN w)
  else if 0x4000 ≤ w ∧ w ≤ 0x4fff then .SkipNeImm (opX w) (opNN w)
  else if 0x5000 ≤ w ∧ w ≤ 0x5ff0 then .SkipEqReg (opX w) (opY w)
  else if 0x6000 ≤ w ∧ w ≤ 0x6fff then .SetImm (opX w) (opNN w)
  else if 0x7000 ≤ w ∧ w ≤ 0x7fff then .AddImm (opX w) (opNN w)
  else if 0x8000 ≤ w ∧ w ≤ 0x8fff then
    (if w &&& 0x000f = 0x0 then .SetReg (opX w) (opY w)
     else if w &&& 0x000f = 0x1 then .OrReg (opX w) (opY w)
     else if w &&& 0x000f = 0x2 then .AndReg (opX w) (opY w)
     else if w &&& 0x000f = 0x3 then .XorReg (opX w) (opY w)
     else if w &&& 0x000f = 0x4 then .AddReg (opX w) (opY w)
     else if w &&& 0x000f = 0x5 then .SubReg (opX w) (opY w)
     else if w &&& 0x000f = 0x6 then .Rsh (opX w)
     else if w &&& 0x000f = 0x7 then .SubFrom (opX w) (opY w)
     else if w &&& 0x000f = 0xE then .Lsh (opX w)
     else .Nop)
  else if 0x9000 ≤ w ∧ w ≤ 0x9ff0 then .SkipNeReg (opX w) (opY w)
  else if 0xA000 ≤ w ∧ w ≤ 0xAfff then .SetMemPtr (opNNN w)
  else if 0xB000 ≤ w ∧ w ≤ 0xBfff then .JumpOffset (opNNN w)
  else if 0xC000 ≤ w ∧ w ≤ 0xCfff then .Rand (opX w) (opNN w)
  else if 0xD000 ≤ w ∧ w ≤ 0xDfff then .Draw (opX w) (opY w) (opN w)
  else if 0xE000 ≤ w ∧ w ≤ 0xEfff then
    (if opNN w = 0x9E then .SkipKeyPressed (opX w)
     else if opNN w = 0xA1 then .SkipKeyNotPressed (opX w)
     else .Nop)
  else if 0xF000 ≤ w ∧ w ≤ 0xFfff then
    (if opNN w = 0x07 then .GetDelay (opX w)
     else if opNN w = 0x0A then .WaitForKey (opX w)
     else if opNN w = 0x15 then .SetDelay (opX w)
     else if opNN w = 0x18 then .SetSound (opX w)
     else if opNN w = 0x1E then .AddMemPtr (opX w)
     else if opNN w = 0x29 then .SetChar (opX w)
     else if opNN w = 0x33 then .BCD (opX w)
     else if opNN w = 0x55 then .RegDump (opX w)
     else if opNN w = 0x65 then .RegLoad (opX w)
     else .Nop)
  else .Nop

/-- Well-formedness of an instruction's operand fields: register indices
are 4-bit, immediates fit their 4/8/12-bit encodings (spec §3: "Each
variant's operand fields are 4-bit register indices (0-15) or 4/8/12-bit
immediates"). -/
def wfFields : Instruction → Bool
  | .ClearScreen | .Ret | .Nop => true
  | .Jump a | .Call a | .SetMemPtr a | .JumpOffset a => a < 4096
  | .SkipEqImm r i | .SkipNeImm r i | .SetImm r i | .AddImm r i
  | .Rand r i => r < 16 && i < 256
  | .SkipEqReg a b | .SetReg a b | .OrReg a b | .AndReg a b
  | .XorReg a b | .AddReg a b | .SubReg a b | .SubFrom a b
  | .SkipNeReg a b => a < 16 && b < 16
  | .Rsh r | .Lsh r | .SkipKeyPressed r | .SkipKeyNotPressed r
  | .GetDelay r | .WaitForKey r | .SetDelay r | .SetSound r
  | .AddMemPtr r | .SetChar r | .BCD r | .RegDump r | .RegLoad r => r < 16
  | .Draw x y n => x < 16 && y < 16 && n < 16

end Instruction

end Chip8

namespace Chip8.Instruction

/-! Arithmetic characterisation of the bit-packing operations. -/

private lemma lor16 (a x : Nat) (hx : x < 16) : (16 * a) ||| x = 16 * a + x := by
  have h := Nat.mul_add_lt_is_or (i := 4) (b := x) (by norm_num [hx]) a
  norm_num at h
  omega

private lemma lor256 (a x : Nat) (hx : x < 256) : (256 * a) ||| x = 256 * a + x := by
  have h := Nat.mul_add_lt_is_or (i := 8) (b := x) (by norm_num [hx]) a
  norm_num at h
  omega

private lemma lor4096 (a x : Nat) (hx : x < 4096) :
    (4096 * a) ||| x = 4096 * a + x := by
  have h := Nat.mul_add_lt_is_or (i := 12) (b := x) (by norm_num [hx]) a
  norm_num at h
  omega

private lemma and_shifted_mask (v m k : Nat) :
    v &&& ((2 ^ m - 1) <<< k) = v / 2 ^ k % 2 ^ m * 2 ^ k := by
  apply Nat.eq_of_testBit_eq
  intro j
  rw [show v / 2 ^ k % 2 ^ m * 2 ^ k = (v / 2 ^ k % 2 ^ m) <<< k from
    (Nat.shiftLeft_eq _ _).symm]
  rw [show v / 2 ^ k = v >>> k from (Nat.shiftRight_eq_div_pow v k).symm]
  simp only [Nat.testBit_and, Nat.testBit_shiftLeft, Nat.testBit_two_pow_sub_one,
    Nat.testBit_mod_two_pow, Nat.testBit_shiftRight]
  by_cases h : k ≤ j
  · have hj : k + (j - k) = j := by omega
    simp [ge_iff_le, h, hj, Bool.and_comm]
  · simp [ge_iff_le, h]

private lemma opX_eq (v : Nat) : opX v = v / 256 % 16 := by
  have h := and_shifted_mask v 4 8
  norm_num [show (15 : Nat) <<< 8 = 3840 from rfl] at h
  rw [opX, show (0x0F00 : Nat) = 3840 from rfl, h, Nat.shiftRight_eq_div_pow]
  norm_num

private lemma opY_eq (v : Nat) : opY v = v / 16 % 16 := by
  have h := and_shifted_mask v 4 4
  norm_num [show (15 : Nat) <<< 4 = 240 from rfl] at h
  rw [opY, show (0x00F0 : Nat) = 240 from rfl, h, Nat.shiftRight_eq_div_pow]
  norm_num

private lemma opN_eq (v : Nat) : opN v = v % 16 := by
  have h := Nat.and_pow_two_sub_one_eq_mod v 4
  norm_num at h
  rw [opN, show (0x000F : Nat) = 15 from rfl, h]

private lemma opNN_eq (v : Nat) : opNN v = v % 256 := by
  have h := Nat.and_pow_two_sub_one_eq_mod v 8
  norm_num at h
  rw [opNN, show (0x00FF : Nat) = 255 from rfl, h]

private lemma opNNN_eq (v : Nat) : opNNN v = v % 4096 := by
  have h := Nat.and_pow_two_sub_one_eq_mod v 12
  norm_num at h
  rw [opNNN, show (0x0FFF : Nat) = 4095 from rfl, h]

private lemma packXNN_eq (r i : Nat) (hi : i < 256) :
    packXNN r i = 256 * r + i := by
  rw [packXNN, Nat.shiftLeft_eq, show r * 2 ^ 8 = 256 * r by ring, lor256 _ _ hi]

private lemma packXY_eq (r1 r2 : Nat) (h2 : r2 < 16) :
    packXY r1 r2 = 256 * r1 + 16 * r2 := by
  rw [packXY, Nat.shiftLeft_eq, Nat.shiftLeft_eq,
    show r1 * 2 ^ 8 = 256 * r1 by ring, show r2 * 2 ^ 4 = 16 * r2 by ring,
    lor256 _ _ (by omega)]

private lemma land15 (v : Nat) : v &&& 0x000f = v % 16 := by
  have h := Nat.and_pow_two_sub_one_eq_mod v 4
  norm_num at h
  rw [show (0x000f : Nat) = 15 from rfl, h]

private lemma lorK (h l reg : Nat) (hl : l < 256) (hreg : reg < 16) :
    (4096 * h + l) ||| (256 * reg) = 4096 * h + 256 * reg + l := by
  have h1 : (4096 * h) ||| l = 4096 * h + l := lor4096 h l (by omega)
  have h2 : (4096 * h) ||| (256 * reg) = 4096 * h + 256 * reg :=
    lor4096 h _ (by omega)
  have h3 : (256 * (16 * h + reg)) ||| l = 256 * (16 * h + reg) + l :=
    lor256 _ l hl
  calc (4096 * h + l) ||| (256 * reg)
      = ((4096 * h) ||| l) ||| (256 * reg) := by rw [h1]
    _ = ((4096 * h) ||| (256 * reg)) ||| l := by
        rw [Nat.lor_assoc, Nat.lor_assoc, Nat.lor_comm l _]
    _ = (256 * (16 * h + reg)) ||| l := by rw [h2]; congr 1; ring
    _ = 4096 * h + 256 * reg + l := by rw [h3]; ring

private lemma rt_jump (a : Nat) (ha : a < 4096) :
    instructionFromU16 (u16FromInstruction (.Jump a)) = .Jump a := by
  have hE : u16FromInstruction (.Jump a) = 0x1000 + a := by
    show 0x1000 ||| a = _
    rw [show (0x1000 : Nat) = 4096 * 1 by norm_num, lor4096 1 _ ha]
  rw [hE]
  unfold instructionFromU16
  rw [negIf (by omega), negIf (by omega), posIf (by omega)]
  rw [opNNN_eq]
  congr 1
  all_goals omega

private lemma rt_call (a : Nat) (ha : a < 4096) :
    instructionFromU16 (u16FromInstruction (.Call a)) = .Call a := by
  have hE : u16FromInstruction (.Call a) = 0x2000 + a := by
    show 0x2000 ||| a = _
    rw [show (0x2000 : Nat) = 4096 * 2 by norm_num, lor4096 2 _ ha]
  rw [hE]
  unfold instructionFromU16
  rw [negIf (by omega), negIf (by omega), negIf (by omega), posIf (by omega)]
  rw [opNNN_eq]
  congr 1
  all_goals omega

private lemma rt_setMemPtr (a : Nat) (ha : a < 4096) :
    instructionFromU16 (u16FromInstruction (.SetMemPtr a)) = .SetMemPtr a := by
  have hE : u16FromInstruction (.SetMemPtr a) = 0xA000 + a := by
    show 0xA000 ||| a = _
    rw [show (0xA000 : Nat) = 4096 * 10 by norm_num, lor4096 10 _ ha]
  rw [hE]
  unfold instructionFromU16
  rw [negIf (by omega), negIf (by omega), negIf (by omega), negIf (by omega), negIf (by omega), negIf (by omega), negIf (by omega), negIf (by omega), negIf (by omega), negIf (by omega), negIf (by omega), posIf (by omega)]
  rw [opNNN_eq]
  congr 1
  all_goals omega

private lemma rt_jumpOffset (a : Nat) (ha : a < 4096) :
    instructionFromU16 (u16FromInstruction (.JumpOffset a)) = .JumpOffset a := by
  have hE : u16FromInstruction (.JumpOffset a) = 0xB000 + a := by
    show 0xB000 ||| a = _
    rw [show (0xB000 : Nat) = 4096 * 11 by norm_num, lor4096 11 _ ha]
  rw [hE]
  unfold instructionFromU16
  rw [negIf (by omega), negIf (by omega), negIf (by omega), negIf (by omega), negIf (by omega), negIf (by omega), negIf (by omega), negIf (by omega), negIf (by omega), negIf (by omega), negIf (by omega), negIf (by omega), posIf (by omega)]
  rw [opNNN_eq]
  congr 1
  all_goals omega

private lemma rt_skipEqImm (r : Nat) (i : Nat) (hr : r < 16) (hi : i < 256) :
    instructionFromU16 (u16FromInstruction (.SkipEqImm r i)) = .SkipEqImm r i := by
  have hE : u16FromInstruction (.SkipEqImm r i) = 0x3000 + (256 * r + i) := by
    show 0x3000 ||| packXNN r i = _
    rw [packXNN_eq r i hi, show (0x3000 : Nat) = 4096 * 3 by norm_num,
      lor4096 3 _ (by omega)]
  rw [hE]
  unfold instructionFromU16
  rw [negIf (by omega), negIf (by omega), negIf (by omega), negIf (by omega), posIf (by omega)]
  rw [opX_eq, opNN_eq]
  congr 1
  all_goals omega

private lemma rt_skipNeImm (r : Nat) (i : Nat) (hr : r < 16) (hi : i < 256) :
    instructionFromU16 (u16FromInstruction (.SkipNeImm r i)) = .SkipNeImm r i := by
  have hE : u16FromInstruction (.SkipNeImm r i) = 0x4000 + (256 * r + i) := by
    show 0x4000 ||| packXNN r i = _
    rw [packXNN_eq r i hi, show (0x4000 : Nat) = 4096 * 4 by norm_num,
      lor4096 4 _ (by omega)]
  rw [hE]
  unfold instructionFromU16
  rw [negIf (by omega), negIf (by omega), negIf (by omega), negIf (by omega), negIf (by omega), posIf (by omega)]
  rw [opX_eq, opNN_eq]
  congr 1
  all_goals omega

private lemma rt_setImm (r : Nat) (i : Nat) (hr : r < 16) (hi : i < 256) :
    instructionFromU16 (u16FromInstruction (.SetImm r i)) = .SetImm r i := by
  have hE : u16FromInstruction (.SetImm r i) = 0x6000 + (256 * r + i) := by
    show 0x6000 ||| packXNN r i = _
    rw [packXNN_eq r i hi, show (0x6000 : Nat) = 4096 * 6 by norm_num,
      lor4096 6 _ (by omega)]
  rw [hE]
  unfold instructionFromU16
  rw [negIf (by omega), negIf (by omega), negIf (by omega), negIf (by omega), negIf (by omega), negIf (by omega), negIf (by omega), posIf (by omega)]
  rw [opX_eq, opNN_eq]
  congr 1
  all_goals omega

private lemma rt_addImm (r : Nat) (i : Nat) (hr : r < 16) (hi : i < 256) :
    instructionFromU16 (u16FromInstruction (.AddImm r i)) = .AddImm r i := by
  have hE : u16FromInstruction (.AddImm r i) = 0x7000 + (256 * r + i) := by
    show 0x7000 ||| packXNN r i = _
    rw [packXNN_eq r i hi, show (0x7000 : Nat) = 4096 * 7 by norm_num,
      lor4096 7 _ (by omega)]
  rw [hE]
  unfold instructionFromU16
  rw [negIf (by omega), negIf (by omega), negIf (by omega), negIf (by omega), negIf (by omega), negIf (by omega), negIf (by omega), negIf (by omega), posIf (by omega)]
  rw [opX_eq, opNN_eq]
  congr 1
  all_goals omega

private lemma rt_rand (r : Nat) (i : Nat) (hr : r < 16) (hi : i < 256) :
    instructionFromU16 (u16FromInstruction (.Rand r i)) = .Rand r i := by
  have hE : u16FromInstruction (.Rand r i) = 0xC000 + (256 * r + i) := by
    show 0xC000 ||| packXNN r i = _
    rw [packXNN_eq r i hi, show (0xC000 : Nat) = 4096 * 12 by norm_num,
      lor4096 12 _ (by omega)]
  rw [hE]
  unfold instructionFromU16
  rw [negIf (by omega), negIf (by omega), negIf (by omega), negIf (by omega), negIf (by omega), negIf (by omega), negIf (by omega), negIf (by omega), negIf (by omega), negIf (by omega), negIf (by omega), negIf (by omega), negIf (by omega), posIf (by omega)]
  rw [opX_eq, opNN_eq]
  congr 1
  all_goals omega

private lemma rt_skipEqReg (a : Nat) (b : Nat) (ha : a < 16) (hb : b < 16) :
    instructionFromU16 (u16FromInstruction (.SkipEqReg a b)) = .SkipEqReg a b := by
  have hE : u16FromInstruction (.SkipEqReg a b) = 0x5000 + (256 * a + 16 * b) := by
    show 0x5000 ||| packXY a b = _
    rw [packXY_eq a b hb, show (0x5000 : Nat) = 4096 * 5 by norm_num,
      lor4096 5 _ (by omega)]
  rw [hE]
  unfold instructionFromU16
  rw [negIf (by omega), negIf (by omega), negIf (by omega), negIf (by omega), negIf (by omega), negIf (by omega), posIf (by omega)]
  rw [opX_eq, opY_eq]
  congr 1
  all_goals omega

private lemma rt_skipNeReg (a : Nat) (b : Nat) (ha : a < 16) (hb : b < 16) :
    instructionFromU16 (u16FromInstruction (.SkipNeReg a b)) = .SkipNeReg a b := by
  have hE : u16FromInstruction (.SkipNeReg a b) = 0x9000 + (256 * a + 16 * b) := by
    show 0x9000 ||| packXY a b = _
    rw [packXY_eq a b hb, show (0x9000 : Nat) = 4096 * 9 by norm_num,
      lor4096 9 _ (by omega)]
  rw [hE]
  unfold instructionFromU16
  rw [negIf (by omega), negIf (by omega), negIf (by omega), negIf (by omega), negIf (by omega), negIf (by omega), negIf (by omega), negIf (by omega), negIf (by omega), negIf (by omega), posIf (by omega)]
  rw [opX_eq, opY_eq]
  congr 1
  all_goals omega

private lemma rt_setReg (a : Nat) (b : Nat) (ha : a < 16) (hb : b < 16) :
    instructionFromU16 (u16FromInstruction (.SetReg a b)) = .SetReg a b := by
  have hE : u16FromInstruction (.SetReg a b) = 0x8000 + (256 * a + 16 * b) + 0 := by
    show 0x8000 ||| packXY a b ||| 0 = _
    rw [packXY_eq a b hb, show (0x8000 : Nat) = 4096 * 8 by norm_num,
      lor4096 8 _ (by omega),
      show 4096 * 8 + (256 * a + 16 * b) = 16 * (2048 + 16 * a + b) by ring,
      lor16 _ _ (by omega)]
    try ring
  rw [hE]
  unfold instructionFromU16
  rw [negIf (by omega), negIf (by omega), negIf (by omega), negIf (by omega), negIf (by omega), negIf (by omega), negIf (by omega), negIf (by omega), negIf (by omega), posIf (by omega)]
  rw [if_pos (by rw [land15]; omega)]
  rw [opX_eq, opY_eq]
  congr 1
  all_goals omega

private lemma rt_orReg (a : Nat) (b : Nat) (ha : a < 16) (hb : b < 16) :
    instructionFromU16 (u16FromInstruction (.OrReg a b)) = .OrReg a b := by
  have hE : u16FromInstruction (.OrReg a b) = 0x8000 + (256 * a + 16 * b) + 1 := by
    show 0x8000 ||| packXY a b ||| 1 = _
    rw [packXY_eq a b hb, show (0x8000 : Nat) = 4096 * 8 by norm_num,
      lor4096 8 _ (by omega),
      show 4096 * 8 + (256 * a + 16 * b) = 16 * (2048 + 16 * a + b) by ring,
      lor16 _ _ (by omega)]
    try ring
  rw [hE]
  unfold instructionFromU16
  rw [negIf (by omega), negIf (by omega), negIf (by omega), negIf (by omega), negIf (by omega), negIf (by omega), negIf (by omega), negIf (by omega), negIf (by omega), posIf (by omega)]
  rw [if_neg (by rw [land15]; omega), if_pos (by rw [land15]; omega)]
  rw [opX_eq, opY_eq]
  congr 1
  all_goals omega

private lemma rt_andReg (a : Nat) (b : Nat) (ha : a < 16) (hb : b < 16) :
    instructionFromU16 (u16FromInstruction (.AndReg a b)) = .AndReg a b := by
  have hE : u16FromInstruction (.AndReg a b) = 0x8000 + (256 * a + 16 * b) + 2 := by
    show 0x8000 ||| packXY a b ||| 2 = _
    rw [packXY_eq a b hb, show (0x8000 : Nat) = 4096 * 8 by norm_num,
      lor4096 8 _ (by omega),
      show 4096 * 8 + (256 * a + 16 * b) = 16 * (2048 + 16 * a + b) by ring,
      lor16 _ _ (by omega)]
    try ring
  rw [hE]
  unfold instructionFromU16
  rw [negIf (by omega), negIf (by omega), negIf (by omega), negIf (by omega), negIf (by omega), negIf (by omega), negIf (by omega), negIf (by omega), negIf (by omega), posIf (by omega)]
  rw [if_neg (by rw [land15]; omega), if_neg (by rw [land15]; omega), if_pos (by rw [land15]; omega)]
  rw [opX_eq, opY_eq]
  congr 1
  all_goals omega

private lemma rt_xorReg (a : Nat) (b : Nat) (ha : a < 16) (hb : b < 16) :
    instructionFromU16 (u16FromInstruction (.XorReg a b)) = .XorReg a b := by
  have hE : u16FromInstruction (.XorReg a b) = 0x8000 + (256 * a + 16 * b) + 3 := by
    show 0x8000 ||| packXY a b ||| 3 = _
    rw [packXY_eq a b hb, show (0x8000 : Nat) = 4096 * 8 by norm_num,
      lor4096 8 _ (by omega),
      show 4096 * 8 + (256 * a + 16 * b) = 16 * (2048 + 16 * a + b) by ring,
      lor16 _ _ (by omega)]
    try ring
  rw [hE]
  unfold instructionFromU16
  rw [negIf (by omega), negIf (by omega), negIf (by omega), negIf (by omega), negIf (by omega), negIf (by omega), negIf (by omega), negIf (by omega), negIf (by omega), posIf (by omega)]
  rw [if_neg (by rw [land15]; omega), if_neg (by rw [land15]; omega), if_neg (by rw [land15]; omega), if_pos (by rw [land15]; omega)]
  rw [opX_eq, opY_eq]
  congr 1
  all_goals omega

private lemma rt_addReg (a : Nat) (b : Nat) (ha : a < 16) (hb : b < 16) :
    instructionFromU16 (u16FromInstruction (.AddReg a b)) = .AddReg a b := by
  have hE : u16FromInstruction (.AddReg a b) = 0x8000 + (256 * a + 16 * b) + 4 := by
    show 0x8000 ||| packXY a b ||| 4 = _
    rw [packXY_eq a b hb, show (0x8000 : Nat) = 4096 * 8 by norm_num,
      lor4096 8 _ (by omega),
      show 4096 * 8 + (256 * a + 16 * b) = 16 * (2048 + 16 * a + b) by ring,
      lor16 _ _ (by omega)]
    try ring
  rw [hE]
  unfold instructionFromU16
  rw [negIf (by omega), negIf (by omega), negIf (by omega), negIf (by omega), negIf (by omega), negIf (by omega), negIf (by omega), negIf (by omega), negIf (by omega), posIf (by omega)]
  rw [if_neg (by rw [land15]; omega), if_neg (by rw [land15]; omega), if_neg (by rw [land15]; omega), if_neg (by rw [land15]; omega), if_pos (by rw [land15]; omega)]
  rw [opX_eq, opY_eq]
  congr 1
  all_goals omega

private lemma rt_subReg (a : Nat) (b : Nat) (ha : a < 16) (hb : b < 16) :
    instructionFromU16 (u16FromInstruction (.SubReg a b)) = .SubReg a b := by
  have hE : u16FromInstruction (.SubReg a b) = 0x8000 + (256 * a + 16 * b) + 5 := by
    show 0x8000 ||| packXY a b ||| 5 = _
    rw [packXY_eq a b hb, show (0x8000 : Nat) = 4096 * 8 by norm_num,
      lor4096 8 _ (by omega),
      show 4096 * 8 + (256 * a + 16 * b) = 16 * (2048 + 16 * a + b) by ring,
      lor16 _ _ (by omega)]
    try ring
  rw [hE]
  unfold instructionFromU16
  rw [negIf (by omega), negIf (by omega), negIf (by omega), negIf (by omega), negIf (by omega), negIf (by omega), negIf (by omega), negIf (by omega), negIf (by omega), posIf (by omega)]
  rw [if_neg (by rw [land15]; omega), if_neg (by rw [land15]; omega), if_neg (by rw [land15]; omega), if_neg (by rw [land15]; omega), if_neg (by rw [land15]; omega), if_pos (by rw [land15]; omega)]
  rw [opX_eq, opY_eq]
  congr 1
  all_goals omega

private lemma rt_subFrom (a : Nat) (b : Nat) (ha : a < 16) (hb : b < 16) :
    instructionFromU16 (u16FromInstruction (.SubFrom a b)) = .SubFrom a b := by
  have hE : u16FromInstruction (.SubFrom a b) = 0x8000 + (256 * a + 16 * b) + 7 := by
    show 0x8000 ||| packXY a b ||| 7 = _
    rw [packXY_eq a b hb, show (0x8000 : Nat) = 4096 * 8 by norm_num,
      lor4096 8 _ (by omega),
      show 4096 * 8 + (256 * a + 16 * b) = 16 * (2048 + 16 * a + b) by ring,
      lor16 _ _ (by omega)]
    try ring
  rw [hE]
  unfold instructionFromU16
  rw [negIf (by omega), negIf (by omega), negIf (by omega), negIf (by omega), negIf (by omega), negIf (by omega), negIf (by omega), negIf (by omega), negIf (by omega), posIf (by omega)]
  rw [if_neg (by rw [land15]; omega), if_neg (by rw [land15]; omega), if_neg (by rw [land15]; omega), if_neg (by rw [land15]; omega), if_neg (by rw [land15]; omega), if_neg (by rw [land15]; omega), if_neg (by rw [land15]; omega), if_pos (by rw [land15]; omega)]
  rw [opX_eq, opY_eq]
  congr 1
  all_goals omega

private lemma rt_rsh (a : Nat) (ha : a < 16) :
    instructionFromU16 (u16FromInstruction (.Rsh a)) = .Rsh a := by
  have hE : u16FromInstruction (.Rsh a) = 0x8000 + 256 * a + 6 := by
    show 0x8000 ||| packXY a 0 ||| 6 = _
    rw [packXY_eq a 0 (by omega), show (0x8000 : Nat) = 4096 * 8 by norm_num,
      lor4096 8 _ (by omega),
      show 4096 * 8 + (256 * a + 16 * 0) = 16 * (2048 + 16 * a) by ring,
      lor16 _ _ (by omega)]
    try ring
  rw [hE]
  unfold instructionFromU16
  rw [negIf (by omega), negIf (by omega), negIf (by omega), negIf (by omega), negIf (by omega), negIf (by omega), negIf (by omega), negIf (by omega), negIf (by omega), posIf (by omega)]
  rw [if_neg (by rw [land15]; omega), if_neg (by rw [land15]; omega), if_neg (by rw [land15]; omega), if_neg (by rw [land15]; omega), if_neg (by rw [land15]; omega), if_neg (by rw [land15]; omega), if_pos (by rw [land15]; omega)]
  rw [opX_eq]
  congr 1
  all_goals omega

private lemma rt_lsh (a : Nat) (ha : a < 16) :
    instructionFromU16 (u16FromInstruction (.Lsh a)) = .Lsh a := by
  have hE : u16FromInstruction (.Lsh a) = 0x8000 + 256 * a + 14 := by
    show 0x8000 ||| packXY a 0 ||| 14 = _
    rw [packXY_eq a 0 (by omega), show (0x8000 : Nat) = 4096 * 8 by norm_num,
      lor4096 8 _ (by omega),
      show 4096 * 8 + (256 * a + 16 * 0) = 16 * (2048 + 16 * a) by ring,
      lor16 _ _ (by omega)]
    try ring
  rw [hE]
  unfold instructionFromU16
  rw [negIf (by omega), negIf (by omega), negIf (by omega), negIf (by omega), negIf (by omega), negIf (by omega), negIf (by omega), negIf (by omega), negIf (by omega), posIf (by omega)]
  rw [if_neg (by rw [land15]; omega), if_neg (by rw [land15]; omega), if_neg (by rw [land15]; omega), if_neg (by rw [land15]; omega), if_neg (by rw [land15]; omega), if_neg (by rw [land15]; omega), if_neg (by rw [land15]; omega), if_neg (by rw [land15]; omega), if_pos (by rw [land15]; omega)]
  rw [opX_eq]
  congr 1
  all_goals omega

private lemma rt_draw (x : Nat) (y : Nat) (n : Nat) (hx : x < 16) (hy : y < 16) (hn : n < 16) :
    instructionFromU16 (u16FromInstruction (.Draw x y n)) = .Draw x y n := by
  have hE : u16FromInstruction (.Draw x y n) = 0xD000 + (256 * x + 16 * y) + n := by
    show 0xD000 ||| packXY x y ||| n = _
    rw [packXY_eq x y hy, show (0xD000 : Nat) = 4096 * 13 by norm_num,
      lor4096 13 _ (by omega),
      show 4096 * 13 + (256 * x + 16 * y) = 16 * (3328 + 16 * x + y) by ring,
      lor16 _ _ (by omega)]
    try ring
  rw [hE]
  unfold instructionFromU16
  rw [negIf (by omega), negIf (by omega), negIf (by omega), negIf (by omega), negIf (by omega), negIf (by omega), negIf (by omega), negIf (by omega), negIf (by omega), negIf (by omega), negIf (by omega), negIf (by omega), negIf (by omega), negIf (by omega), posIf (by omega)]
  rw [opX_eq, opY_eq, opN_eq]
  congr 1
  all_goals omega

private lemma rt_skipKeyPressed (r : Nat) (hr : r < 16) :
    instructionFromU16 (u16FromInstruction (.SkipKeyPressed r)) = .SkipKeyPressed r := by
  have hE : u16FromInstruction (.SkipKeyPressed r) = 0xE09E + 256 * r := by
    show 0xE09E ||| packXY r 0 = _
    rw [packXY_eq r 0 (by omega), show 256 * r + 16 * 0 = 256 * r by ring,
      show (0xE09E : Nat) = 4096 * 14 + 158 by norm_num, lorK 14 158 r (by omega) hr]
    try ring
  rw [hE]
  unfold instructionFromU16
  rw [negIf (by omega), negIf (by omega), negIf (by omega), negIf (by omega), negIf (by omega), negIf (by omega), negIf (by omega), negIf (by omega), negIf (by omega), negIf (by omega), negIf (by omega), negIf (by omega), negIf (by omega), negIf (by omega), negIf (by omega), posIf (by omega)]
  rw [if_pos (by rw [opNN_eq]; omega)]
  rw [opX_eq]
  congr 1
  all_goals omega

private lemma rt_skipKeyNotPressed (r : Nat) (hr : r < 16) :
    instructionFromU16 (u16FromInstruction (.SkipKeyNotPressed r)) = .SkipKeyNotPressed r := by
  have hE : u16FromInstruction (.SkipKeyNotPressed r) = 0xE0A1 + 256 * r := by
    show 0xE0A1 ||| packXY r 0 = _
    rw [packXY_eq r 0 (by omega), show 256 * r + 16 * 0 = 256 * r by ring,
      show (0xE0A1 : Nat) = 4096 * 14 + 161 by norm_num, lorK 14 161 r (by omega) hr]
    try ring
  rw [hE]
  unfold instructionFromU16
  rw [negIf (by omega), negIf (by omega), negIf (by omega), negIf (by omega), negIf (by omega), negIf (by omega), negIf (by omega), negIf (by omega), negIf (by omega), negIf (by omega), negIf (by omega), negIf (by omega), negIf (by omega), negIf (by omega), negIf (by omega), posIf (by omega)]
  rw [if_neg (by rw [opNN_eq]; omega), if_pos (by rw [opNN_eq]; omega)]
  rw [opX_eq]
  congr 1
  all_goals omega

private lemma rt_getDelay (r : Nat) (hr : r < 16) :
    instructionFromU16 (u16FromInstruction (.GetDelay r)) = .GetDelay r := by
  have hE : u16FromInstruction (.GetDelay r) = 0xF007 + 256 * r := by
    show 0xF007 ||| packXY r 0 = _
    rw [packXY_eq r 0 (by omega), show 256 * r + 16 * 0 = 256 * r by ring,
      show (0xF007 : Nat) = 4096 * 15 + 7 by norm_num, lorK 15 7 r (by omega) hr]
    try ring
  rw [hE]
  unfold instructionFromU16
  rw [negIf (by omega), negIf (by omega), negIf (by omega), negIf (by omega), negIf (by omega), negIf (by omega), negIf (by omega), negIf (by omega), negIf (by omega), negIf (by omega), negIf (by omega), negIf (by omega), negIf (by omega), negIf (by omega), negIf (by omega), negIf (by omega), posIf (by omega)]
  rw [if_pos (by rw [opNN_eq]; omega)]
  rw [opX_eq]
  congr 1
  all_goals omega

private lemma rt_waitForKey (r : Nat) (hr : r < 16) :
    instructionFromU16 (u16FromInstruction (.WaitForKey r)) = .WaitForKey r := by
  have hE : u16FromInstruction (.WaitForKey r) = 0xF00A + 256 * r := by
    show 0xF00A ||| packXY r 0 = _
    rw [packXY_eq r 0 (by omega), show 256 * r + 16 * 0 = 256 * r by ring,
      show (0xF00A : Nat) = 4096 * 15 + 10 by norm_num, lorK 15 10 r (by omega) hr]
    try ring
  rw [hE]
  unfold instructionFromU16
  rw [negIf (by omega), negIf (by omega), negIf (by omega), negIf (by omega), negIf (by omega), negIf (by omega), negIf (by omega), negIf (by omega), negIf (by omega), negIf (by omega), negIf (by omega), negIf (by omega), negIf (by omega), negIf (by omega), negIf (by omega), negIf (by omega), posIf (by omega)]
  rw [if_neg (by rw [opNN_eq]; omega), if_pos (by rw [opNN_eq]; omega)]
  rw [opX_eq]
  congr 1
  all_goals omega

private lemma rt_setDelay (r : Nat) (hr : r < 16) :
    instructionFromU16 (u16FromInstruction (.SetDelay r)) = .SetDelay r := by
  have hE : u16FromInstruction (.SetDelay r) = 0xF015 + 256 * r := by
    show 0xF015 ||| packXY r 0 = _
    rw [packXY_eq r 0 (by omega), show 256 * r + 16 * 0 = 256 * r by ring,
      show (0xF015 : Nat) = 4096 * 15 + 21 by norm_num, lorK 15 21 r (by omega) hr]
    try ring
  rw [hE]
  unfold instructionFromU16
  rw [negIf (by omega), negIf (by omega), negIf (by omega), negIf (by omega), negIf (by omega), negIf (by omega), negIf (by omega), negIf (by omega), negIf (by omega), negIf (by omega), negIf (by omega), negIf (by omega), negIf (by omega), negIf (by omega), negIf (by omega), negIf (by omega), posIf (by omega)]
  rw [if_neg (by rw [opNN_eq]; omega), if_neg (by rw [opNN_eq]; omega), if_pos (by rw [opNN_eq]; omega)]
  rw [opX_eq]
  congr 1
  all_goals omega

private lemma rt_setSound (r : Nat) (hr : r < 16) :
    instructionFromU16 (u16FromInstruction (.SetSound r)) = .SetSound r := by
  have hE : u16FromInstruction (.SetSound r) = 0xF018 + 256 * r := by
    show 0xF018 ||| packXY r 0 = _
    rw [packXY_eq r 0 (by omega), show 256 * r + 16 * 0 = 256 * r by ring,
      show (0xF018 : Nat) = 4096 * 15 + 24 by norm_num, lorK 15 24 r (by omega) hr]
    try ring
  rw [hE]
  unfold instructionFromU16
  rw [negIf (by omega), negIf (by omega), negIf (by omega), negIf (by omega), negIf (by omega), negIf (by omega), negIf (by omega), negIf (by omega), negIf (by omega), negIf (by omega), negIf (by omega), negIf (by omega), negIf (by omega), negIf (by omega), negIf (by omega), negIf (by omega), posIf (by omega)]
  rw [if_neg (by rw [opNN_eq]; omega), if_neg (by rw [opNN_eq]; omega), if_neg (by rw [opNN_eq]; omega), if_pos (by rw [opNN_eq]; omega)]
  rw [opX_eq]
  congr 1
  all_goals omega

private lemma rt_addMemPtr (r : Nat) (hr : r < 16) :
    instructionFromU16 (u16FromInstruction (.AddMemPtr r)) = .AddMemPtr r := by
  have hE : u16FromInstruction (.AddMemPtr r) = 0xF01E + 256 * r := by
    show 0xF01E ||| packXY r 0 = _
    rw [packXY_eq r 0 (by omega), show 256 * r + 16 * 0 = 256 * r by ring,
      show (0xF01E : Nat) = 4096 * 15 + 30 by norm_num, lorK 15 30 r (by omega) hr]
    try ring
  rw [hE]
  unfold instructionFromU16
  rw [negIf (by omega), negIf (by omega), negIf (by omega), negIf (by omega), negIf (by omega), negIf (by omega), negIf (by omega), negIf (by omega), negIf (by omega), negIf (by omega), negIf (by omega), negIf (by omega), negIf (by omega), negIf (by omega), negIf (by omega), negIf (by omega), posIf (by omega)]
  rw [if_neg (by rw [opNN_eq]; omega), if_neg (by rw [opNN_eq]; omega), if_neg (by rw [opNN_eq]; omega), if_neg (by rw [opNN_eq]; omega), if_pos (by rw [opNN_eq]; omega)]
  rw [opX_eq]
  congr 1
  all_goals omega

private lemma rt_setChar (r : Nat) (hr : r < 16) :
    instructionFromU16 (u16FromInstruction (.SetChar r)) = .SetChar r := by
  have hE : u16FromInstruction (.SetChar r) = 0xF029 + 256 * r := by
    show 0xF029 ||| packXY r 0 = _
    rw [packXY_eq r 0 (by omega), show 256 * r + 16 * 0 = 256 * r by ring,
      show (0xF029 : Nat) = 4096 * 15 + 41 by norm_num, lorK 15 41 r (by omega) hr]
    try ring
  rw [hE]
  unfold instructionFromU16
  rw [negIf (by omega), negIf (by omega), negIf (by omega), negIf (by omega), negIf (by omega), negIf (by omega), negIf (by omega), negIf (by omega), negIf (by omega), negIf (by omega), negIf (by omega), negIf (by omega), negIf (by omega), negIf (by omega), negIf (by omega), negIf (by omega), posIf (by omega)]
  rw [if_neg (by rw [opNN_eq]; omega), if_neg (by rw [opNN_eq]; omega), if_neg (by rw [opNN_eq]; omega), if_neg (by rw [opNN_eq]; omega), if_neg (by rw [opNN_eq]; omega), if_pos (by rw [opNN_eq]; omega)]
  rw [opX_eq]
  congr 1
  all_goals omega

private lemma rt_bcd (r : Nat) (hr : r < 16) :
    instructionFromU16 (u16FromInstruction (.BCD r)) = .BCD r := by
  have hE : u16FromInstruction (.BCD r) = 0xF033 + 256 * r := by
    show 0xF033 ||| packXY r 0 = _
    rw [packXY_eq r 0 (by omega), show 256 * r + 16 * 0 = 256 * r by ring,
      show (0xF033 : Nat) = 4096 * 15 + 51 by norm_num, lorK 15 51 r (by omega) hr]
    try ring
  rw [hE]
  unfold instructionFromU16
  rw [negIf (by omega), negIf (by omega), negIf (by omega), negIf (by omega), negIf (by omega), negIf (by omega), negIf (by omega), negIf (by omega), negIf (by omega), negIf (by omega), negIf (by omega), negIf (by omega), negIf (by omega), negIf (by omega), negIf (by omega), negIf (by omega), posIf (by omega)]
  rw [if_neg (by rw [opNN_eq]; omega), if_neg (by rw [opNN_eq]; omega), if_neg (by rw [opNN_eq]; omega), if_neg (by rw [opNN_eq]; omega), if_neg (by rw [opNN_eq]; omega), if_neg (by rw [opNN_eq]; omega), if_pos (by rw [opNN_eq]; omega)]
  rw [opX_eq]
  congr 1
  all_goals omega

private lemma rt_regDump (r : Nat) (hr : r < 16) :
    instructionFromU16 (u16FromInstruction (.RegDump r)) = .RegDump r := by
  have hE : u16FromInstruction (.RegDump r) = 0xF055 + 256 * r := by
    show 0xF055 ||| packXY r 0 = _
    rw [packXY_eq r 0 (by omega), show 256 * r + 16 * 0 = 256 * r by ring,
      show (0xF055 : Nat) = 4096 * 15 + 85 by norm_num, lorK 15 85 r (by omega) hr]
    try ring
  rw [hE]
  unfold instructionFromU16
  rw [negIf (by omega), negIf (by omega), negIf (by omega), negIf (by omega), negIf (by omega), negIf (by omega), negIf (by omega), negIf (by omega), negIf (by omega), negIf (by omega), negIf (by omega), negIf (by omega), negIf (by omega), negIf (by omega), negIf (by omega), negIf (by omega), posIf (by omega)]
  rw [if_neg (by rw [opNN_eq]; omega), if_neg (by rw [opNN_eq]; omega), if_neg (by rw [opNN_eq]; omega), if_neg (by rw [opNN_eq]; omega), if_neg (by rw [opNN_eq]; omega), if_neg (by rw [opNN_eq]; omega), if_neg (by rw [opNN_eq]; omega), if_pos (by rw [opNN_eq]; omega)]
  rw [opX_eq]
  congr 1
  all_goals omega

private lemma rt_regLoad (r : Nat) (hr : r < 16) :
    instructionFromU16 (u16FromInstruction (.RegLoad r)) = .RegLoad r := by
  have hE : u16FromInstruction (.RegLoad r) = 0xF065 + 256 * r := by
    show 0xF065 ||| packXY r 0 = _
    rw [packXY_eq r 0 (by omega), show 256 * r + 16 * 0 = 256 * r by ring,
      show (0xF065 : Nat) = 4096 * 15 + 101 by norm_num, lorK 15 101 r (by omega) hr]
    try ring
  rw [hE]
  unfold instructionFromU16
  rw [negIf (by omega), negIf (by omega), negIf (by omega), negIf (by omega), negIf (by omega), negIf (by omega), negIf (by omega), negIf (by omega), negIf (by omega), negIf (by omega), negIf (by omega), negIf (by omega), negIf (by omega), negIf (by omega), negIf (by omega), negIf (by omega), posIf (by omega)]
  rw [if_neg (by rw [opNN_eq]; omega), if_neg (by rw [opNN_eq]; omega), if_neg (by rw [opNN_eq]; omega), if_neg (by rw [opNN_eq]; omega), if_neg (by rw [opNN_eq]; omega), if_neg (by rw [opNN_eq]; omega), if_neg (by rw [opNN_eq]; omega), if_neg (by rw [opNN_eq]; omega), if_pos (by rw [opNN_eq]; omega)]
  rw [opX_eq]
  congr 1
  all_goals omega

/-- C1: for every defined `Instruction` variant `i` other than the
unknown-opcode catch-all `Nop`, decoding the 16-bit binary encoding of `i`
yields `i` back: `decode(encode(i)) == i`. -/
theorem decode_encode_roundtrip (i : Instruction) (hwf : wfFields i = true)
    (hn : i ≠ Instruction.Nop) :
    instructionFromU16 (u16FromInstruction i) = i := by
  cases i with
  | Nop => exact absurd rfl hn
  | ClearScreen => rfl
  | Ret => rfl
  | Jump a =>
    simp only [wfFields, decide_eq_true_eq] at hwf; exact rt_jump a hwf
  | Call a =>
    simp only [wfFields, decide_eq_true_eq] at hwf; exact rt_call a hwf
  | SetMemPtr a =>
    simp only [wfFields, decide_eq_true_eq] at hwf; exact rt_setMemPtr a hwf
  | JumpOffset a =>
    simp only [wfFields, decide_eq_true_eq] at hwf; exact rt_jumpOffset a hwf
  | SkipEqImm r i =>
    simp only [wfFields, Bool.and_eq_true, decide_eq_true_eq] at hwf
    exact rt_skipEqImm r i hwf.1 hwf.2
  | SkipNeImm r i =>
    simp only [wfFields, Bool.and_eq_true, decide_eq_true_eq] at hwf
    exact rt_skipNeImm r i hwf.1 hwf.2
  | SetImm r i =>
    simp only [wfFields, Bool.and_eq_true, decide_eq_true_eq] at hwf
    exact rt_setImm r i hwf.1 hwf.2
  | AddImm r i =>
    simp only [wfFields, Bool.and_eq_true, decide_eq_true_eq] at hwf
    exact rt_addImm r i hwf.1 hwf.2
  | Rand r i =>
    simp only [wfFields, Bool.and_eq_true, decide_eq_true_eq] at hwf
    exact rt_rand r i hwf.1 hwf.2
  | SkipEqReg a b =>
    simp only [wfFields, Bool.and_eq_true, decide_eq_true_eq] at hwf
    exact rt_skipEqReg a b hwf.1 hwf.2
  | SkipNeReg a b =>
    simp only [wfFields, Bool.and_eq_true, decide_eq_true_eq] at hwf
    exact rt_skipNeReg a b hwf.1 hwf.2
  | SetReg a b =>
    simp only [wfFields, Bool.and_eq_true, decide_eq_true_eq] at hwf
    exact rt_setReg a b hwf.1 hwf.2
  | OrReg a b =>
    simp only [wfFields, Bool.and_eq_true, decide_eq_true_eq] at hwf
    exact rt_orReg a b hwf.1 hwf.2
  | AndReg a b =>
    simp only [wfFields, Bool.and_eq_true, decide_eq_true_eq] at hwf
    exact rt_andReg a b hwf.1 hwf.2
  | XorReg a b =>
    simp only [wfFields, Bool.and_eq_true, decide_eq_true_eq] at hwf
    exact rt_xorReg a b hwf.1 hwf.2
  | AddReg a b =>
    simp only [wfFields, Bool.and_eq_true, decide_eq_true_eq] at hwf
    exact rt_addReg a b hwf.1 hwf.2
  | SubReg a b =>
    simp only [wfFields, Bool.and_eq_true, decide_eq_true_eq] at hwf
    exact rt_subReg a b hwf.1 hwf.2
  | SubFrom a b =>
    simp only [wfFields, Bool.and_eq_true, decide_eq_true_eq] at hwf
    exact rt_subFrom a b hwf.1 hwf.2
  | Rsh a =>
    simp only [wfFields, decide_eq_true_eq] at hwf; exact rt_rsh a hwf
  | Lsh a =>
    simp only [wfFields, decide_eq_true_eq] at hwf; exact rt_lsh a hwf
  | Draw x y n =>
    simp only [wfFields, Bool.and_eq_true, decide_eq_true_eq] at hwf
    exact rt_draw x y n hwf.1.1 hwf.1.2 hwf.2
  | SkipKeyPressed r =>
    simp only [wfFields, decide_eq_true_eq] at hwf; exact rt_skipKeyPressed r hwf
  | SkipKeyNotPressed r =>
    simp only [wfFields, decide_eq_true_eq] at hwf
    exact rt_skipKeyNotPressed r hwf
  | GetDelay r =>
    simp only [wfFields, decide_eq_true_eq] at hwf; exact rt_getDelay r hwf
  | WaitForKey r =>
    simp only [wfFields, decide_eq_true_eq] at hwf; exact rt_waitForKey r hwf
  | SetDelay r =>
    simp only [wfFields, decide_eq_true_eq] at hwf; exact rt_setDelay r hwf
  | SetSound r =>
    simp only [wfFields, decide_eq_true_eq] at hwf; exact rt_setSound r hwf
  | AddMemPtr r =>
    simp only [wfFields, decide_eq_true_eq] at hwf; exact rt_addMemPtr r hwf
  | SetChar r =>
    simp only [wfFields, decide_eq_true_eq] at hwf; exact rt_setChar r hwf
  | BCD r =>
    simp only [wfFields, decide_eq_true_eq] at hwf; exact rt_bcd r hwf
  | RegDump r =>
    simp only [wfFields, decide_eq_true_eq] at hwf; exact rt_regDump r hwf
  | RegLoad r =>
    simp only [wfFields, decide_eq_true_eq] at hwf; exact rt_regLoad r hwf

/-- Witness for C1: the round-trip theorem applied at the concrete
instruction `Jump 0x204`. -/
theorem decode_encode_roundtrip_witness :
    wfFields (Instruction.Jump 0x204) = true ∧
      (Instruction.Jump 0x204 ≠ Instruction.Nop) ∧
      instructionFromU16 (u16FromInstruction (Instruction.Jump 0x204))
        = Instruction.Jump 0x204 :=
  ⟨by decide, by decide,
    decode_encode_roundtrip (Instruction.Jump 0x204) (by decide) (by decide)⟩

end Chip8.Instruction

namespace Chip8.Instruction

/-- The set of 16-bit patterns matched by a defined (non-catch-all) arm of
`impl From<u16> for Instruction` in `src/instructions.rs`: the two literal
opcodes, the opcode-class ranges, the defined low nibbles of class `0x8`
and the defined low bytes of classes `0xE` and `0xF`. -/
def DefinedOpcode (w : Nat) : Prop :=
  w = 0x00E0 ∨ w = 0x00EE ∨
  (0x1000 ≤ w ∧ w ≤ 0x1fff) ∨ (0x2000 ≤ w ∧ w ≤ 0x2fff) ∨
  (0x3000 ≤ w ∧ w ≤ 0x3fff) ∨ (0x4000 ≤ w ∧ w ≤ 0x4fff) ∨
  (0x5000 ≤ w ∧ w ≤ 0x5ff0) ∨ (0x6000 ≤ w ∧ w ≤ 0x6fff) ∨
  (0x7000 ≤ w ∧ w ≤ 0x7fff) ∨
  (0x8000 ≤ w ∧ w ≤ 0x8fff ∧
    (w &&& 0x000f = 0x0 ∨ w &&& 0x000f = 0x1 ∨ w &&& 0x000f = 0x2 ∨
     w &&& 0x000f = 0x3 ∨ w &&& 0x000f = 0x4 ∨ w &&& 0x000f = 0x5 ∨
     w &&& 0x000f = 0x6 ∨ w &&& 0x000f = 0x7 ∨ w &&& 0x000f = 0xE)) ∨
  (0x9000 ≤ w ∧ w ≤ 0x9ff0) ∨ (0xA000 ≤ w ∧ w ≤ 0xAfff) ∨
  (0xB000 ≤ w ∧ w ≤ 0xBfff) ∨ (0xC000 ≤ w ∧ w ≤ 0xCfff) ∨
  (0xD000 ≤ w ∧ w ≤ 0xDfff) ∨
  (0xE000 ≤ w ∧ w ≤ 0xEfff ∧ (opNN w = 0x9E ∨ opNN w = 0xA1)) ∨
  (0xF000 ≤ w ∧ w ≤ 0xFfff ∧
    (opNN w = 0x07 ∨ opNN w = 0x0A ∨ opNN w = 0x15 ∨ opNN w = 0x18 ∨
     opNN w = 0x1E ∨ opNN w = 0x29 ∨ opNN w = 0x33 ∨ opNN w = 0x55 ∨
     opNN w = 0x65))

/-- C6: decoding a 16-bit word is total (the embedding is a total function)
and every bit pattern that does not match a defined opcode case — including
the undefined low nibbles of class `0x8` and the undefined low bytes of
classes `0xE` and `0xF` — decodes to `Nop`. -/
theorem decode_undefined_to_nop (w : Nat) (hw : w < 65536)
    (h : ¬ DefinedOpcode w) : instructionFromU16 w = .Nop := by
  unfold DefinedOpcode at h
  unfold instructionFromU16
  by_cases c1 : w = 0x00E0
  · exact (h (.inl c1)).elim
  rw [if_neg c1]
  by_cases c2 : w = 0x00EE
  · exact (h (.inr (.inl c2))).elim
  rw [if_neg c2]
  by_cases c3 : 0x1000 ≤ w ∧ w ≤ 0x1fff
  · exact (h (.inr (.inr (.inl c3)))).elim
  rw [if_neg c3]
  by_cases c4 : 0x2000 ≤ w ∧ w ≤ 0x2fff
  · exact (h (.inr (.inr (.inr (.inl c4))))).elim
  rw [if_neg c4]
  by_cases c5 : 0x3000 ≤ w ∧ w ≤ 0x3fff
  · exact (h (.inr (.inr (.inr (.inr (.inl c5)))))).elim
  rw [if_neg c5]
  by_cases c6 : 0x4000 ≤ w ∧ w ≤ 0x4fff
  · exact (h (.inr (.inr (.inr (.inr (.inr (.inl c6))))))).elim
  rw [if_neg c6]
  by_cases c7 : 0x5000 ≤ w ∧ w ≤ 0x5ff0
  · exact (h (.inr (.inr (.inr (.inr (.inr (.inr (.inl c7)))))))).elim
  rw [if_neg c7]
  by_cases c8 : 0x6000 ≤ w ∧ w ≤ 0x6fff
  · exact (h (.inr (.inr (.inr (.inr (.inr (.inr (.inr (.inl c8))))))))).elim
  rw [if_neg c8]
  by_cases c9 : 0x7000 ≤ w ∧ w ≤ 0x7fff
  · exact (h (.inr (.inr (.inr (.inr (.inr (.inr (.inr (.inr (.inl c9)))))))))).elim
  rw [if_neg c9]
  by_cases c10 : 0x8000 ≤ w ∧ w ≤ 0x8fff
  · rw [if_pos c10]
    by_cases d1 : w &&& 0x000f = 0x0
    · exact (h (.inr (.inr (.inr (.inr (.inr (.inr (.inr (.inr (.inr (.inl ⟨c10.1, c10.2, (.inl d1)⟩))))))))))).elim
    rw [if_neg d1]
    by_cases d2 : w &&& 0x000f = 0x1
    · exact (h (.inr (.inr (.inr (.inr (.inr (.inr (.inr (.inr (.inr (.inl ⟨c10.1, c10.2, (.inr (.inl d2))⟩))))))))))).elim
    rw [if_neg d2]
    by_cases d3 : w &&& 0x000f = 0x2
    · exact (h (.inr (.inr (.inr (.inr (.inr (.inr (.inr (.inr (.inr (.inl ⟨c10.1, c10.2, (.inr (.inr (.inl d3)))⟩))))))))))).elim
    rw [if_neg d3]
    by_cases d4 : w &&& 0x000f = 0x3
    · exact (h (.inr (.inr (.inr (.inr (.inr (.inr (.inr (.inr (.inr (.inl ⟨c10.1, c10.2, (.inr (.inr (.inr (.inl d4))))⟩))))))))))).elim
    rw [if_neg d4]
    by_cases d5 : w &&& 0x000f = 0x4
    · exact (h (.inr (.inr (.inr (.inr (.inr (.inr (.inr (.inr (.inr (.inl ⟨c10.1, c10.2, (.inr (.inr (.inr (.inr (.inl d5)))))⟩))))))))))).elim
    rw [if_neg d5]
    by_cases d6 : w &&& 0x000f = 0x5
    · exact (h (.inr (.inr (.inr (.inr (.inr (.inr (.inr (.inr (.inr (.inl ⟨c10.1, c10.2, (.inr (.inr (.inr (.inr (.inr (.inl d6))))))⟩))))))))))).elim
    rw [if_neg d6]
    by_cases d7 : w &&& 0x000f = 0x6
    · exact (h (.inr (.inr (.inr (.inr (.inr (.inr (.inr (.inr (.inr (.inl ⟨c10.1, c10.2, (.inr (.inr (.inr (.inr (.inr (.inr (.inl d7)))))))⟩))))))))))).elim
    rw [if_neg d7]
    by_cases d8 : w &&& 0x000f = 0x7
    · exact (h (.inr (.inr (.inr (.inr (.inr (.inr (.inr (.inr (.inr (.inl ⟨c10.1, c10.2, (.inr (.inr (.inr (.inr (.inr (.inr (.inr (.inl d8))))))))⟩))))))))))).elim
    rw [if_neg d8]
    by_cases d9 : w &&& 0x000f = 0xE
    · exact (h (.inr (.inr (.inr (.inr (.inr (.inr (.inr (.inr (.inr (.inl ⟨c10.1, c10.2, (.inr (.inr (.inr (.inr (.inr (.inr (.inr (.inr d9))))))))⟩))))))))))).elim
    rw [if_neg d9]
  rw [if_neg c10]
  by_cases c11 : 0x9000 ≤ w ∧ w ≤ 0x9ff0
  · exact (h (.inr (.inr (.inr (.inr (.inr (.inr (.inr (.inr (.inr (.inr (.inl c11)))))))))))).elim
  rw [if_neg c11]
  by_cases c12 : 0xA000 ≤ w ∧ w ≤ 0xAfff
  · exact (h (.inr (.inr (.inr (.inr (.inr (.inr (.inr (.inr (.inr (.inr (.inr (.inl c12))))))))))))).elim
  rw [if_neg c12]
  by_cases c13 : 0xB000 ≤ w ∧ w ≤ 0xBfff
  · exact (h (.inr (.inr (.inr (.inr (.inr (.inr (.inr (.inr (.inr (.inr (.inr (.inr (.inl c13)))))))))))))).elim
  rw [if_neg c13]
  by_cases c14 : 0xC000 ≤ w ∧ w ≤ 0xCfff
  · exact (h (.inr (.inr (.inr (.inr (.inr (.inr (.inr (.inr (.inr (.inr (.inr (.inr (.inr (.inl c14))))))))))))))).elim
  rw [if_neg c14]
  by_cases c15 : 0xD000 ≤ w ∧ w ≤ 0xDfff
  · exact (h (.inr (.inr (.inr (.inr (.inr (.inr (.inr (.inr (.inr (.inr (.inr (.inr (.inr (.inr (.inl c15)))))))))))))))).elim
  rw [if_neg c15]
  by_cases c16 : 0xE000 ≤ w ∧ w ≤ 0xEfff
  · rw [if_pos c16]
    by_cases e1 : opNN w = 0x9E
    · exact (h (.inr (.inr (.inr (.inr (.inr (.inr (.inr (.inr (.inr (.inr (.inr (.inr (.inr (.inr (.inr (.inl ⟨c16.1, c16.2, (.inl e1)⟩))))))))))))))))).elim
    rw [if_neg e1]
    by_cases e2 : opNN w = 0xA1
    · exact (h (.inr (.inr (.inr (.inr (.inr (.inr (.inr (.inr (.inr (.inr (.inr (.inr (.inr (.inr (.inr (.inl ⟨c16.1, c16.2, (.inr e2)⟩))))))))))))))))).elim
    rw [if_neg e2]
  rw [if_neg c16]
  by_cases c17 : 0xF000 ≤ w ∧ w ≤ 0xFfff
  · rw [if_pos c17]
    by_cases f1 : opNN w = 0x07
    · exact (h (.inr (.inr (.inr (.inr (.inr (.inr (.inr (.inr (.inr (.inr (.inr (.inr (.inr (.inr (.inr (.inr ⟨c17.1, c17.2, (.inl f1)⟩))))))))))))))))).elim
    rw [if_neg f1]
    by_cases f2 : opNN w = 0x0A
    · exact (h (.inr (.inr (.inr (.inr (.inr (.inr (.inr (.inr (.inr (.inr (.inr (.inr (.inr (.inr (.inr (.inr ⟨c17.1, c17.2, (.inr (.inl f2))⟩))))))))))))))))).elim
    rw [if_neg f2]
    by_cases f3 : opNN w = 0x15
    · exact (h (.inr (.inr (.inr (.inr (.inr (.inr (.inr (.inr (.inr (.inr (.inr (.inr (.inr (.inr (.inr (.inr ⟨c17.1, c17.2, (.inr (.inr (.inl f3)))⟩))))))))))))))))).elim
    rw [if_neg f3]
    by_cases f4 : opNN w = 0x18
    · exact (h (.inr (.inr (.inr (.inr (.inr (.inr (.inr (.inr (.inr (.inr (.inr (.inr (.inr (.inr (.inr (.inr ⟨c17.1, c17.2, (.inr (.inr (.inr (.inl f4))))⟩))))))))))))))))).elim
    rw [if_neg f4]
    by_cases f5 : opNN w = 0x1E
    · exact (h (.inr (.inr (.inr (.inr (.inr (.inr (.inr (.inr (.inr (.inr (.inr (.inr (.inr (.inr (.inr (.inr ⟨c17.1, c17.2, (.inr (.inr (.inr (.inr (.inl f5)))))⟩))))))))))))))))).elim
    rw [if_neg f5]
    by_cases f6 : opNN w = 0x29
    · exact (h (.inr (.inr (.inr (.inr (.inr (.inr (.inr (.inr (.inr (.inr (.inr (.inr (.inr (.inr (.inr (.inr ⟨c17.1, c17.2, (.inr (.inr (.inr (.inr (.inr (.inl f6))))))⟩))))))))))))))))).elim
    rw [if_neg f6]
    by_cases f7 : opNN w = 0x33
    · exact (h (.inr (.inr (.inr (.inr (.inr (.inr (.inr (.inr (.inr (.inr (.inr (.inr (.inr (.inr (.inr (.inr ⟨c17.1, c17.2, (.inr (.inr (.inr (.inr (.inr (.inr (.inl f7)))))))⟩))))))))))))))))).elim
    rw [if_neg f7]
    by_cases f8 : opNN w = 0x55
    · exact (h (.inr (.inr (.inr (.inr (.inr (.inr (.inr (.inr (.inr (.inr (.inr (.inr (.inr (.inr (.inr (.inr ⟨c17.1, c17.2, (.inr (.inr (.inr (.inr (.inr (.inr (.inr (.inl f8))))))))⟩))))))))))))))))).elim
    rw [if_neg f8]
    by_cases f9 : opNN w = 0x65
    · exact (h (.inr (.inr (.inr (.inr (.inr (.inr (.inr (.inr (.inr (.inr (.inr (.inr (.inr (.inr (.inr (.inr ⟨c17.1, c17.2, (.inr (.inr (.inr (.inr (.inr (.inr (.inr (.inr f9))))))))⟩))))))))))))))))).elim
    rw [if_neg f9]
  rw [if_neg c17]

/-- Witness for C6: the word `0x8008` (class `0x8`, undefined low nibble
`0x8`) decodes to `Nop`. -/
theorem decode_undefined_to_nop_witness :
    0x8008 < 65536 ∧ ¬ DefinedOpcode 0x8008 ∧
      instructionFromU16 0x8008 = .Nop :=
  ⟨by decide, by unfold DefinedOpcode; decide,
    decode_undefined_to_nop 0x8008 (by decide) (by unfold DefinedOpcode; decide)⟩

end Chip8.Instruction

namespace Chip8

/-! ## Machine state and execution engine, from `src/lib.rs` -/

/-- `struct Memory` from `src/lib.rs`: 4 KB of RAM, the 64×32 one-bit
display and 16 key flags.  The Rust fixed-size arrays are modelled as total
functions from the index type; the code only ever indexes them in bounds. -/
structure Memory where
  ram : Nat → Nat
  display : Nat → Bool
  keys : Nat → Bool

/-- `struct Registers` from `src/lib.rs`. -/
structure Registers where
  vn : Nat → Nat
  delay : Nat
  sound : Nat
  pc : Nat
  sp : Nat
  i : Nat
  keyFlag : Option Nat

/-- Pointwise array update (Rust `arr[k] = v`). -/
def updNat (f : Nat → Nat) (k v : Nat) : Nat → Nat :=
  fun j => if j = k then v else f j

/-- Pointwise array update for the boolean display. -/
def updBool (f : Nat → Bool) (k : Nat) (v : Bool) : Nat → Bool :=
  fun j => if j = k then v else f j

/-- `index!` macro from `src/lib.rs`: `row * DISPLAY_COLUMNS + col` with
`DISPLAY_COLUMNS = 32`. -/
def displayIndex (row col : Nat) : Nat := row * 32 + col

/-- `get_bit` from `src/lib.rs`: `((char & (1 << (7 - index))) >> index) != 0`.
(Note the source shifts the masked value right by `index`, not `7 - index`.) -/
def get_bit (c idx : Nat) : Bool := ((c &&& (1 <<< (7 - idx))) >>> idx) != 0

/-- `Memory::set_row` from `src/lib.rs`: writes the 8 bits of `row` into
display cells `index!(x, y+i)` for `i = 0..8` by plain assignment. -/
def Memory.set_row (m : Memory) (x y row : Nat) : Memory :=
  let d := (List.range 8).foldl
    (fun d i => updBool d (displayIndex x (y + i)) (get_bit row i)) m.display
  { m with display := d }

/-- `get_instruction` from `src/lib.rs`: fetch the big-endian word at
`[pc, pc+1]` and decode it. -/
def get_instruction (m : Memory) (r : Registers) : Instruction :=
  Instruction.instructionFromU16 ((m.ram r.pc <<< 8) ||| m.ram (r.pc + 1))

/-- `add_with_overflow` from `src/lib.rs` (u8 values; `checked_add`
succeeds iff the sum fits in a byte). -/
def add_with_overflow (a b : Nat) : Nat × Bool :=
  let larger := if a > b then a else b
  let smaller := if larger = a then b else a
  if larger + smaller ≤ 255 then (larger + smaller, false)
  else (smaller - (255 - larger) - 1, true)

/-- `subtract_with_underflow` from `src/lib.rs`: "Evaluate a - b, setting a
flag if there was no underflow".  On underflow it computes
`u8::MAX - b + a`, i.e. `255 - b + a`. -/
def subtract_with_underflow (a b : Nat) : Nat × Bool :=
  if b > a then (255 - b + a, false) else (a - b, true)

/-- `INSTRUCTION_SIZE` from `src/lib.rs`. -/
def INSTRUCTION_SIZE : Nat := 2

/-- The Draw arm's sprite loop from `src/lib.rs`:
`for count in 0..n { set_row(x+count, y, ram[i+count]) }`. -/
def drawLoop (m : Memory) (i x y n : Nat) : Memory :=
  (List.range n).foldl
    (fun mem count => mem.set_row (x + count) y (mem.ram (i + count))) m

/-- Block copy, modelling `copy_from_slice` over a range:
`dst[start .. start+n] = src[0 .. n]`. -/
def copyRange (dst src : Nat → Nat) (start n : Nat) : Nat → Nat :=
  fun j => if start ≤ j ∧ j < start + n then src (j - start) else dst j

/-- `do_instruction` from `src/lib.rs` (lines 462-585): fetch, decode,
execute, then advance `pc` by 2 unless the instruction was
`Jump`/`JumpOffset`/`Call`/`Ret`.  `randByte` stands for the byte produced
by `rand::random::<u8>()` in the `Rand` arm; the in-bounds `assert!`s of
the `Draw` and `SetChar` arms are noted in comments at the call sites of
the corresponding theorems. -/
def do_instruction (randByte : Nat) (m : Memory) (r : Registers) :
    Memory × Registers :=
  let instruction := get_instruction m r
  let step :=
    match instruction with
    | .Nop => (m, r)
    | .Jump addr => (m, { r with pc := addr })
    | .Call addr =>
        let v := r.pc % 65536
        ({ m with ram := updNat (updNat m.ram (r.sp - 1) (v >>> 8)) r.sp (v % 256) },
         { r with sp := r.sp - 2, pc := addr })
    | .Ret =>
        let sp2 := r.sp + 2
        (m, { r with sp := sp2,
                     pc := (m.ram (sp2 - 1) <<< 8) ||| m.ram sp2 })
    | .SkipEqImm reg imm =>
        (m, if r.vn reg = imm then { r with pc := r.pc + INSTRUCTION_SIZE } else r)
    | .SkipNeImm reg imm =>
        (m, if r.vn reg ≠ imm then { r with pc := r.pc + INSTRUCTION_SIZE } else r)
    | .SkipEqReg r1 r2 =>
        (m, if r.vn r1 = r.vn r2 then { r with pc := r.pc + INSTRUCTION_SIZE } else r)
    | .SkipNeReg r1 r2 =>
        (m, if r.vn r1 ≠ r.vn r2 then { r with pc := r.pc + INSTRUCTION_SIZE } else r)
    | .SetImm reg imm => (m, { r with vn := updNat r.vn reg imm })
    | .AddImm reg imm =>
        let result := (add_with_overflow (r.vn reg) imm).1
        (m, { r with vn := updNat r.vn reg result })
    | .AddReg vx vy =>
        let x := r.vn vx
        let y := r.vn vy
        let rf := add_with_overflow x y
        (m, { r with vn := updNat (updNat r.vn 15 (if rf.2 then 1 else 0)) vx rf.1 })
    | .SubReg vx vy =>
        let rf := subtract_with_underflow (r.vn vx) (r.vn vy)
        (m, { r with vn := updNat (updNat r.vn vx rf.1) 15 (if rf.2 then 1 else 0) })
    | .SubFrom vx vy =>
        -- the source passes the register *indices* vy, vx to
        -- subtract_with_underflow, not the register contents
        let rf := subtract_with_underflow vy vx
        (m, { r with vn := updNat (updNat r.vn vx rf.1) 15 (if rf.2 then 1 else 0) })
    | .ClearScreen => ({ m with display := fun _ => false }, r)
    | .Draw vx vy n =>
        let x := r.vn vx
        let y := r.vn vy
        (drawLoop m r.i x y n, r)
    | .SetChar reg => (m, { r with i := r.vn reg * 5 })
    | .SetMemPtr imm => (m, { r with i := imm })
    | .WaitForKey reg => (m, { r with keyFlag := some reg })
    | .SetReg r1 r2 => (m, { r with vn := updNat r.vn r1 (r.vn r2) })
    | .OrReg r1 r2 => (m, { r with vn := updNat r.vn r1 (r.vn r1 ||| r.vn r2) })
    | .AndReg r1 r2 => (m, { r with vn := updNat r.vn r1 (r.vn r1 &&& r.vn r2) })
    | .XorReg r1 r2 => (m, { r with vn := updNat r.vn r1 (r.vn r1 ^^^ r.vn r2) })
    | .Rsh r1 =>
        let v1 := updNat r.vn 15 (r.vn r1 &&& 0x0001)
        (m, { r with vn := updNat v1 r1 (v1 r1 >>> 1) })
    | .Lsh r1 =>
        let v1 := updNat r.vn 15 (r.vn r1 &&& (1 <<< 7))
        (m, { r with vn := updNat v1 r1 ((v1 r1 <<< 1) % 256) })
    | .JumpOffset imm => (m, { r with pc := (r.vn 0 + imm) % 65536 })
    | .Rand reg imm => (m, { r with vn := updNat r.vn reg (randByte &&& imm) })
    | .SkipKeyPressed reg =>
        (m, if m.keys (r.vn reg) then { r with pc := r.pc + INSTRUCTION_SIZE } else r)
    | .SkipKeyNotPressed reg =>
        (m, if ¬ m.keys (r.vn reg) then { r with pc := r.pc + INSTRUCTION_SIZE } else r)
    | .GetDelay reg => (m, { r with vn := updNat r.vn reg r.delay })
    | .SetDelay reg => (m, { r with delay := r.vn reg })
    | .SetSound reg => (m, { r with sound := r.vn reg })
    | .AddMemPtr reg => (m, { r with i := r.i + r.vn reg })
    | .BCD reg =>
        let val := r.vn reg
        let ones := val % 10
        let tens := val % 100 - ones
        let hundreds := val - tens - ones
        ({ m with ram := updNat (updNat (updNat m.ram r.i hundreds)
            (r.i + 1) tens) (r.i + 2) ones }, r)
    | .RegDump reg =>
        ({ m with ram := copyRange m.ram r.vn r.i reg }, r)
    | .RegLoad vx =>
        (m, { r with vn := copyRange r.vn (fun k => m.ram (r.i + k)) 0 vx })
  let isJump :=
    match instruction with
    | .Jump _ | .JumpOffset _ | .Call _ | .Ret => true
    | _ => false
  if isJump then step
  else (step.1, { step.2 with pc := step.2.pc + INSTRUCTION_SIZE })

end Chip8

namespace Chip8

/-- C10: executing add-immediate (`AddImm`: `Vx += imm`, wrapping mod 256)
leaves the flag register `VF` (`vn[15]`) unchanged whenever the target
register is not `VF` itself, for every prior flag value: the overflow
indication computed by `add_with_overflow` is discarded and no flag is
written. -/
theorem addImm_preserves_flag (randByte : Nat) (m : Memory) (r : Registers)
    (reg imm : Nat) (hfetch : get_instruction m r = .AddImm reg imm)
    (hreg : reg ≠ 15) :
    ((do_instruction randByte m r).2).vn 15 = r.vn 15 := by
  unfold do_instruction
  rw [hfetch]
  rw [if_neg (by simp : ¬ (false = true))]
  simp only [updNat]
  rw [if_neg (by omega : ¬ (15 : Nat) = reg)]

/-- Witness state for C10: RAM holding `0x7005` (`AddImm 0 5`) at `0x200`. -/
def memAddImm : Memory :=
  { ram := fun a => if a = 0x200 then 0x70 else if a = 0x201 then 0x05 else 0
    display := fun _ => false
    keys := fun _ => false }

/-- Witness registers for C10: default-like state, `VF = 7`. -/
def regsAddImm : Registers :=
  { vn := fun j => if j = 15 then 7 else 0
    delay := 0, sound := 0, pc := 0x200, sp := 0x1ff, i := 0, keyFlag := none }

/-- Witness for C10: the frame theorem applied at the concrete state. -/
theorem addImm_preserves_flag_witness :
    get_instruction memAddImm regsAddImm = .AddImm 0 5 ∧ (0 : Nat) ≠ 15 ∧
      ((do_instruction 0 memAddImm regsAddImm).2).vn 15 = regsAddImm.vn 15 :=
  ⟨by decide, by decide,
    addImm_preserves_flag 0 memAddImm regsAddImm 0 5 (by decide) (by decide)⟩

end Chip8

namespace Chip8

/-- State for C3, part 1: `0x8015` (`SubReg 0 1`) at `0x200`, `V0 = 0`,
`V1 = 1`. -/
def memSub : Memory :=
  { ram := fun a => if a = 0x200 then 0x80 else if a = 0x201 then 0x15 else 0
    display := fun _ => false
    keys := fun _ => false }

/-- Registers for C3, part 1. -/
def regsSub : Registers :=
  { vn := fun j => if j = 1 then 1 else 0
    delay := 0, sound := 0, pc := 0x200, sp := 0x1ff, i := 0, keyFlag := none }

/-- State for C3, part 2: `0x8127` (`SubFrom` with `vx = 1`, `vy = 2`) at
`0x200`, `V1 = 10`, `V2 = 20`. -/
def memSubFrom : Memory :=
  { ram := fun a => if a = 0x200 then 0x81 else if a = 0x201 then 0x27 else 0
    display := fun _ => false
    keys := fun _ => false }

/-- Registers for C3, part 2. -/
def regsSubFrom : Registers :=
  { vn := fun j => if j = 1 then 10 else if j = 2 then 20 else 0
    delay := 0, sound := 0, pc := 0x200, sp := 0x1ff, i := 0, keyFlag := none }

/-- C3 (code evaluation at the failing inputs): executing `SubReg 0 1` with
`V0 = 0`, `V1 = 1` stores `255 - 1 + 0 = 254` in `V0` — not the mod-256
wrap 255 the claim requires — with `VF = 0`; and executing `SubFrom` with
`vx = 1`, `vy = 2`, `V1 = 10`, `V2 = 20` stores `2 - 1 = 1` (the register
*indices* subtracted) instead of `V2 - V1 = 10`. -/
theorem sub_code_divergence :
    (((do_instruction 0 memSub regsSub).2).vn 0 = 254 ∧
      ((do_instruction 0 memSub regsSub).2).vn 15 = 0 ∧ (254 : Nat) ≠ 255) ∧
    (((do_instruction 0 memSubFrom regsSubFrom).2).vn 1 = 1 ∧
      ((do_instruction 0 memSubFrom regsSubFrom).2).vn 15 = 1 ∧
      (1 : Nat) ≠ 10) := by decide

/-- State for C8: `0xF033` (`BCD 0`) at `0x200`, `V0 = 123`, `I = 0x300`. -/
def memBCD : Memory :=
  { ram := fun a => if a = 0x200 then 0xF0 else if a = 0x201 then 0x33 else 0
    display := fun _ => false
    keys := fun _ => false }

/-- Registers for C8. -/
def regsBCD : Registers :=
  { vn := fun j => if j = 0 then 123 else 0
    delay := 0, sound := 0, pc := 0x200, sp := 0x1ff, i := 0x300, keyFlag := none }

/-- C8 (code evaluation at the failing input): executing `BCD` with
`V0 = 123` stores `100`, `20`, `3` at `[I, I+1, I+2]` — the hundreds and
tens *parts*, not the decimal digits `1`, `2`, `3` the claim requires; the
stored bytes do not all lie in `0..=9`. -/
theorem bcd_code_divergence :
    ((do_instruction 0 memBCD regsBCD).1).ram 0x300 = 100 ∧
      ((do_instruction 0 memBCD regsBCD).1).ram 0x301 = 20 ∧
      ((do_instruction 0 memBCD regsBCD).1).ram 0x302 = 3 ∧
      ¬ ((do_instruction 0 memBCD regsBCD).1).ram 0x300 ≤ 9 := by decide

/-- State for C9: `0xF155` (`RegDump 1`) at `0x200`, `V0 = 7`, `V1 = 9`,
`I = 0x300`; and `0xF165` (`RegLoad 1`) at `0x200` with `RAM[0x300] = 42`,
`RAM[0x301] = 43`. -/
def memRegDump : Memory :=
  { ram := fun a => if a = 0x200 then 0xF1 else if a = 0x201 then 0x55 else 0
    display := fun _ => false
    keys := fun _ => false }

/-- Registers for the C9 `RegDump` part. -/
def regsRegDump : Registers :=
  { vn := fun j => if j = 0 then 7 else if j = 1 then 9 else 0
    delay := 0, sound := 0, pc := 0x200, sp := 0x1ff, i := 0x300, keyFlag := none }

/-- Memory for the C9 `RegLoad` part. -/
def memRegLoad : Memory :=
  { ram := fun a => if a = 0x200 then 0xF1 else if a = 0x201 then 0x65 else
      if a = 0x300 then 42 else if a = 0x301 then 43 else 0
    display := fun _ => false
    keys := fun _ => false }

/-- Registers for the C9 `RegLoad` part. -/
def regsRegLoad : Registers :=
  { vn := fun _ => 0
    delay := 0, sound := 0, pc := 0x200, sp := 0x1ff, i := 0x300, keyFlag := none }

/-- C9 (code evaluation at the failing input): `RegDump 1` copies only
`V0` (`memory.ram[i..i+1]`), leaving `RAM[I+1]` untouched although the
claim requires `V0` through `V1` inclusive; `RegLoad 1` likewise fills only
`V0`. -/
theorem regDump_code_divergence :
    (((do_instruction 0 memRegDump regsRegDump).1).ram 0x300 = 7 ∧
      ((do_instruction 0 memRegDump regsRegDump).1).ram 0x301 = 0 ∧
      (0 : Nat) ≠ 9) ∧
    (((do_instruction 0 memRegLoad regsRegLoad).2).vn 0 = 42 ∧
      ((do_instruction 0 memRegLoad regsRegLoad).2).vn 1 = 0 ∧
      (0 : Nat) ≠ 43) := by decide

/-- State for C2: `0xD011` (`Draw vx=0 vy=1 n=1`) at both `0x200` and
`0x202`, sprite byte `0xFF` at `I = 0x300`, all registers zero (so the
sprite is drawn at `(0, 0)` twice, on an initially blank framebuffer). -/
def memDraw : Memory :=
  { ram := fun a => if a = 0x200 then 0xD0 else if a = 0x201 then 0x11 else
      if a = 0x202 then 0xD0 else if a = 0x203 then 0x11 else
      if a = 0x300 then 0xFF else 0
    display := fun _ => false
    keys := fun _ => false }

/-- Registers for C2. -/
def regsDraw : Registers :=
  { vn := fun _ => 0
    delay := 0, sound := 0, pc := 0x200, sp := 0x1ff, i := 0x300, keyFlag := none }

/-- C2 (code evaluation at the failing input): drawing the byte `0xFF`
twice at `(0,0)` on a blank framebuffer.  The code assigns sprite bits
instead of XOR-ing them (and its bit extractor loses the low nibble:
pixel 4 stays off even though the sprite bit is set), never touches `VF`,
and after the second draw the framebuffer still shows the sprite — the
claim requires a collision (`VF = 1`) and a blank framebuffer. -/
theorem draw_code_divergence :
    (((do_instruction 0 memDraw regsDraw).1).display (displayIndex 0 0) = true ∧
      ((do_instruction 0 memDraw regsDraw).1).display (displayIndex 0 4) = false ∧
      ((do_instruction 0 memDraw regsDraw).2).vn 15 = 0) ∧
    ((let s1 := do_instruction 0 memDraw regsDraw
      let s2 := do_instruction 0 s1.1 s1.2
      (s2.1.display (displayIndex 0 0) = true ∧ s2.2.vn 15 = 0))) := by decide

end Chip8

namespace Chip8

/-- State for C4: the ROM of the repository's own `test_call_ret`:
`0x2204` (`call 0x204`) at `0x200`, `0x00EE` (`ret`) at `0x204`. -/
def memCall : Memory :=
  { ram := fun a => if a = 0x200 then 0x22 else if a = 0x201 then 0x04 else
      if a = 0x204 then 0x00 else if a = 0x205 then 0xEE else 0
    display := fun _ => false
    keys := fun _ => false }

/-- Default registers for C4 (`pc = 0x200`, `sp = 0x1ff`). -/
def regsCall : Registers :=
  { vn := fun _ => 0
    delay := 0, sound := 0, pc := 0x200, sp := 0x1ff, i := 0, keyFlag := none }

/-- Counterexample for C4 as stated: after `call 0x204` at `0x200` and the
matching `ret`, the program counter is `0x200` — the address of the call
instruction itself, not `0x202` (call + 2) as the claim requires.  The
stack pointer does return to its pre-call value. -/
theorem call_ret_counterexample :
    (let s1 := do_instruction 0 memCall regsCall
     let s2 := do_instruction 0 s1.1 s1.2
     s1.2.pc = 0x204 ∧ s2.2.pc = 0x200 ∧ s2.2.pc ≠ 0x202 ∧
       s2.2.sp = 0x1ff) := by decide

private lemma be_roundtrip (v : Nat) (hv : v < 65536) :
    ((v >>> 8) <<< 8) ||| (v % 256) = v := by
  rw [Nat.shiftRight_eq_div_pow, Nat.shiftLeft_eq,
    show (2 : Nat) ^ 8 = 256 by norm_num,
    show v / 256 * 256 = 256 * (v / 256) by ring,
    Instruction.lor256 _ _ (by omega)]
  omega

/-- C4 amended: executing `call addr` pushes the pc of the call instruction
itself (unincremented) and decrements `sp` by 2; executing the matching
`ret` later — from any state whose stack pointer equals the post-call one
and whose stack slots still hold the pushed bytes — restores `pc` to
exactly the call instruction's address (not the instruction after it) and
returns `sp` to its pre-call value. -/
theorem call_ret_discipline (rb rb2 : Nat) (m : Memory) (r : Registers)
    (addr : Nat) (t : Memory) (u : Registers)
    (hfetch : get_instruction m r = .Call addr)
    (hpc : r.pc < 65536) (hsp : 2 ≤ r.sp)
    (husp : u.sp = r.sp - 2)
    (hram1 : t.ram (r.sp - 1) = ((do_instruction rb m r).1).ram (r.sp - 1))
    (hram2 : t.ram r.sp = ((do_instruction rb m r).1).ram r.sp)
    (hfetch2 : get_instruction t u = .Ret) :
    ((do_instruction rb2 t u).2).pc = r.pc ∧
      ((do_instruction rb2 t u).2).sp = r.sp := by
  have hpush1 : ((do_instruction rb m r).1).ram (r.sp - 1) = (r.pc % 65536) >>> 8 := by
    unfold do_instruction
    rw [hfetch]
    rw [if_pos rfl]
    simp only [updNat]
    rw [if_neg (by omega : ¬ r.sp - 1 = r.sp)]
    simp
  have hpush2 : ((do_instruction rb m r).1).ram r.sp = r.pc % 65536 % 256 := by
    unfold do_instruction
    rw [hfetch]
    rw [if_pos rfl]
    simp only [updNat]
    simp
  have hsp2 : u.sp + 2 = r.sp := by omega
  unfold do_instruction
  rw [hfetch2]
  rw [if_pos rfl]
  refine ⟨?_, ?_⟩
  · show (t.ram (u.sp + 2 - 1) <<< 8) ||| t.ram (u.sp + 2) = r.pc
    rw [show u.sp + 2 - 1 = r.sp - 1 by omega, hsp2, hram1, hram2, hpush1, hpush2,
      Nat.mod_eq_of_lt hpc]
    exact be_roundtrip r.pc hpc
  · show u.sp + 2 = r.sp
    exact hsp2

/-- Witness for C4's amended theorem: applied to the concrete
`test_call_ret` machine, with the intermediate state after the call serving
as the later pre-`ret` state. -/
theorem call_ret_discipline_witness :
    ((do_instruction 0 (do_instruction 0 memCall regsCall).1
        (do_instruction 0 memCall regsCall).2).2).pc = regsCall.pc ∧
      ((do_instruction 0 (do_instruction 0 memCall regsCall).1
        (do_instruction 0 memCall regsCall).2).2).sp = regsCall.sp :=
  call_ret_discipline 0 0 memCall regsCall 0x204
    (do_instruction 0 memCall regsCall).1 (do_instruction 0 memCall regsCall).2
    (by decide) (by decide) (by decide) (by decide) rfl rfl (by decide)

end Chip8

namespace Chip8

/-! ## Shared text utilities (ASCII, decimal parsing)

Modelling Rust's `to_ascii_lowercase`, `char::is_whitespace`-splitting and
`str::parse::<uN>` (decimal digits with a range check; sign prefixes are
not used by any input considered here). -/

/-- Rust `u8::to_ascii_lowercase` / `char::to_ascii_lowercase`. -/
def asciiLower (c : Char) : Char :=
  if 'A' ≤ c ∧ c ≤ 'Z' then Char.ofNat (c.toNat + 32) else c

/-- ASCII decimal digit test. -/
def isDigitChar (c : Char) : Bool := 48 ≤ c.toNat && c.toNat ≤ 57

/-- Value of an ASCII digit. -/
def digitVal (c : Char) : Nat := c.toNat - 48

/-- Decimal accumulation over the remaining characters. -/
def parseDigitsGo : List Char → Nat → Option Nat
  | [], acc => some acc
  | c :: cs, acc =>
      if isDigitChar c then parseDigitsGo cs (acc * 10 + digitVal c) else none

/-- `str::parse::<uN>` without the range check: all-decimal-digits,
non-empty. -/
def parseDigits : List Char → Option Nat
  | [] => none
  | c :: cs => parseDigitsGo (c :: cs) 0

/-- `str::parse::<u8>`: decimal with the `u8` range check. -/
def parseU8tok (cs : List Char) : Option Nat :=
  match parseDigits cs with
  | some n => if n ≤ 255 then some n else none
  | none => none

/-- `str::parse::<u16>`: decimal with the `u16` range check. -/
def parseU16tok (cs : List Char) : Option Nat :=
  match parseDigits cs with
  | some n => if n ≤ 65535 then some n else none
  | none => none

end Chip8

namespace Chip8.Asm

/-! ## Assembler (`chip8cc/src/labels.rs`) -/

/-- `enum Line` from `chip8cc/src/labels.rs`. -/
inductive Line where
  | Instr (i : Instruction)
  | Data (bytes : List Nat)
deriving DecidableEq, Repr

/-- `struct Program` from `chip8cc/src/labels.rs`.  The `HashMap` label
table is modelled as an association list where insertion prepends and
lookup takes the first match (insert-overwrites semantics). -/
structure Program where
  instructions : List Line
  labels : List (String × Nat)
  references : List (Option String)
deriving DecidableEq, Repr

/-- `HashMap::get` on the association-list model. -/
def lookupLabel : List (String × Nat) → String → Option Nat
  | [], _ => none
  | (n, v) :: rest, k => if n = k then some v else lookupLabel rest k

/-- Byte size of one line, as computed inside `Program::fix_references`:
2 bytes per instruction, the literal byte length per `Data` block. -/
def lineSize : Line → Nat
  | .Instr _ => INSTRUCTION_SIZE
  | .Data d => d.length

/-- `Program::fix_references` from `chip8cc/src/labels.rs`: for every slot
with a recorded label reference, look the label up, sum the byte sizes of
every line before the target, add the 0x200 load base, and rewrite the
`Call`/`Jump` immediate at that slot.  The source panics on a missing
label or a non-`Call`/`Jump` slot; those cases leave the program unchanged
here and are not exercised by any theorem. -/
def fix_references (p : Program) : Program :=
  (List.range p.references.length).foldl
    (fun prog usage =>
      match prog.references.get? usage with
      | some (some label) =>
          match lookupLabel prog.labels label with
          | some target =>
              let sizes := ((prog.instructions.take target).map lineSize).sum
              let newAddr := sizes + 0x200
              match prog.instructions.get? usage with
              | some (Line.Instr (.Call _)) =>
                  { prog with instructions :=
                      prog.instructions.set usage (Line.Instr (.Call newAddr)) }
              | some (Line.Instr (.Jump _)) =>
                  { prog with instructions :=
                      prog.instructions.set usage (Line.Instr (.Jump newAddr)) }
              | _ => prog
          | none => prog
      | _ => prog)
    p

/-- One parsed source item: a label line or an instruction line with its
optional label reference. -/
inductive SrcItem where
  | label (name : String)
  | instr (l : Line) (ref : Option String)

/-- Whitespace tokenizer 
(Modelled from the spec: the pest grammar file `grammar/labels.pest` is not
under `src/`; spec §6 describes the format as "one instruction or label
per line; instructions are a keyword followed by space-separated
operands"). -/
def splitTokGo : List Char → List Char → List (List Char)
  | [], acc => if acc.isEmpty then [] else [acc.reverse]
  | c :: cs, acc =>
      if c = ' ' then
        if acc.isEmpty then splitTokGo cs [] else acc.reverse :: splitTokGo cs []
      else splitTokGo cs (c :: acc)

/-- Tokens of one line. -/
def tokens (s : String) : List (List Char) := splitTokGo s.toList []

/-- Does a token end in `:` (a label line, spec §6)? -/
def endsColon (t : List Char) : Bool :=
  match t.reverse with
  | ':' :: _ => true
  | _ => false

/-- `register` from `chip8cc/src/labels.rs`: lowercase, strip the `v`
prefix, parse as `u8`. -/
def parseRegisterTok (t : List Char) : Option Nat :=
  match t.map asciiLower with
  | 'v' :: rest => parseU8tok rest
  | _ => none

/-- A `bytes` operand from `parse_bytes`: the source strips the `0x`
prefix and then calls `str::parse` — i.e. it parses the remaining digits
as decimal. -/
def parseByteTok (t : List Char) : Option Nat :=
  match t with
  | '0' :: 'x' :: rest => parseU8tok rest
  | _ => none

/-- All operands of a `bytes` line. -/
def parseBytesArgs : List (List Char) → Option (List Nat)
  | [] => some []
  | t :: ts =>
      match parseByteTok t, parseBytesArgs ts with
      | some b, some bs => some (b :: bs)
      | _, _ => none

/-- Parse one source line into a label or an instruction-plus-reference.
Modelled from the spec: the pest grammar supplies the line structure
(label = identifier followed by `:`; instruction = keyword plus operands);
the construction of each `Instruction` follows `parse_instruction`,
`parse_binop`, `parse_jump`, `parse_call` and `parse_load` in
`chip8cc/src/labels.rs` — in particular binary operations pick the
register-register variant iff the second operand is register-shaped, and a
`jp`/`call` operand that is not a number is recorded as a label reference
with a placeholder address 0. -/
def parseAsmLine (line : String) : Option SrcItem :=
  match tokens line with
  | [t] =>
      if endsColon t then some (.label (String.mk t.dropLast))
      else if t = "cls".toList then some (.instr (Line.Instr .ClearScreen) none)
      else if t = "ret".toList then some (.instr (Line.Instr .Ret) none)
      else if t = "nop".toList then some (.instr (Line.Instr .Nop) none)
      else none
  | [a, b] =>
      if a = "jp".toList then
        match parseU16tok b with
        | some n => some (.instr (Line.Instr (.Jump n)) none)
        | none => some (.instr (Line.Instr (.Jump 0)) (some (String.mk b)))
      else if a = "call".toList then
        match parseU16tok b with
        | some n => some (.instr (Line.Instr (.Call n)) none)
        | none => some (.instr (Line.Instr (.Call 0)) (some (String.mk b)))
      else none
  | a :: rest =>
      if a = "bytes".toList then
        match parseBytesArgs rest with
        | some bs => some (.instr (Line.Data bs) none)
        | none => none
      else
        match rest with
        | [b, c] =>
            match parseRegisterTok b with
            | some r1 =>
                if a = "ld".toList then
                  match parseRegisterTok c with
                  | some r2 => some (.instr (Line.Instr (.SetReg r1 r2)) none)
                  | none =>
                      match parseU8tok c with
                      | some n => some (.instr (Line.Instr (.SetImm r1 n)) none)
                      | none => none
                else if a = "add".toList then
                  match parseRegisterTok c with
                  | some r2 => some (.instr (Line.Instr (.AddReg r1 r2)) none)
                  | none =>
                      match parseU8tok c with
                      | some n => some (.instr (Line.Instr (.AddImm r1 n)) none)
                      | none => none
                else if a = "se".toList then
                  match parseRegisterTok c with
                  | some r2 => some (.instr (Line.Instr (.SkipEqReg r1 r2)) none)
                  | none =>
                      match parseU8tok c with
                      | some n => some (.instr (Line.Instr (.SkipEqImm r1 n)) none)
                      | none => none
                else none
            | none => none
        | _ => none
  | _ => none

/-- `parse_program` from `chip8cc/src/labels.rs`: fold over source lines;
an instruction line is appended to `instructions` with its reference slot;
a label line records the *current* instruction count in the label table
and produces no instruction. -/
def parse_program (srcLines : List String) : Option Program :=
  srcLines.foldl
    (fun acc line =>
      match acc with
      | none => none
      | some prog =>
          match parseAsmLine line with
          | none => none
          | some (.label name) =>
              some { prog with
                labels := (name, prog.instructions.length) :: prog.labels }
          | some (.instr l ref) =>
              some { prog with
                instructions := prog.instructions ++ [l],
                references := prog.references ++ [ref] })
    (some { instructions := [], labels := [], references := [] })

/-- The six-instruction program of C5. -/
def c5Source : List String :=
  ["start:", "ld v0 1", "ld v1 10", "loop:", "add v0 1", "se v0 v1",
   "jp loop", "end:", "jp end"]

/-- Extract the parsed program (the parse succeeds; the default is never
used). -/
def progOf (o : Option Program) : Program :=
  o.getD { instructions := [], labels := [], references := [] }

/-- C5: parsing the six-instruction program yields a label table with
`start = 0`, `loop = 2`, `end = 5` (each label line records the current
instruction count and creates no instruction), and after `fix_references`
the final `jp end` instruction's operand equals 0x200 plus the sum of the
byte sizes of the lines before the target — `0x20A` for this program. -/
theorem label_resolution :
    (parse_program c5Source).isSome = true ∧
    (progOf (parse_program c5Source)).instructions.length = 6 ∧
    lookupLabel (progOf (parse_program c5Source)).labels "start" = some 0 ∧
    lookupLabel (progOf (parse_program c5Source)).labels "loop" = some 2 ∧
    lookupLabel (progOf (parse_program c5Source)).labels "end" = some 5 ∧
    (fix_references (progOf (parse_program c5Source))).instructions.get? 5
      = some (Line.Instr (Instruction.Jump 0x20A)) := by decide

end Chip8.Asm

namespace Chip8.Instruction

/-! ## Mnemonic printing and parsing (`src/instructions.rs`) -/

/-- The ASCII character of a decimal digit. -/
def digitChar (d : Nat) : Char :=
  if d = 0 then '0' else if d = 1 then '1' else if d = 2 then '2'
  else if d = 3 then '3' else if d = 4 then '4' else if d = 5 then '5'
  else if d = 6 then '6' else if d = 7 then '7' else if d = 8 then '8'
  else '9'

/-- Bounded decimal rendering: most-significant digit first; the fuel
argument only bounds the recursion and any `fuel ≥ n` yields the digits of
`n` (empty for `n = 0`). -/
def natCharsAux : Nat → Nat → List Char
  | 0, _ => []
  | fuel + 1, n =>
      if n = 0 then []
      else natCharsAux fuel (n / 10) ++ [digitChar (n % 10)]

/-- Decimal rendering of a natural number, as Rust's `{}` formatting of an
unsigned integer produces it. -/
def natChars (m : Nat) : List Char :=
  if m = 0 then ['0'] else natCharsAux m m

/-- `impl Display for Instruction` from `src/instructions.rs`
(lines 356-396), producing the exact character sequence of each `write!`
(note `Jump` prints as `JMP V{v}` and `Call` as `CALL V{v}`). -/
def instrToChars : Instruction → List Char
  | .Nop => ['N', 'O', 'P']
  | .ClearScreen => ['C', 'L', 'S']
  | .Ret => ['R', 'E', 'T']
  | .Jump v => ['J', 'M', 'P', ' ', 'V'] ++ natChars v
  | .Call v => ['C', 'A', 'L', 'L', ' ', 'V'] ++ natChars v
  | .SkipEqImm reg imm =>
      ['S', 'E', ' ', 'V'] ++ (natChars reg ++ (' ' :: natChars imm))
  | .SkipEqReg r1 r2 =>
      ['S', 'E', ' ', 'V'] ++ (natChars r1 ++ (' ' :: 'V' :: natChars r2))
  | .SkipNeImm reg imm =>
      ['S', 'N', 'E', ' ', 'V'] ++ (natChars reg ++ (' ' :: natChars imm))
  | .SkipNeReg r1 r2 =>
      ['S', 'N', 'E', ' ', 'V'] ++ (natChars r1 ++ (' ' :: 'V' :: natChars r2))
  | .SetImm reg imm =>
      ['L', 'D', ' ', 'V'] ++ (natChars reg ++ (' ' :: natChars imm))
  | .AddImm reg imm =>
      ['A', 'D', 'D', ' ', 'V'] ++ (natChars reg ++ (' ' :: natChars imm))
  | .AddMemPtr reg => ['A', 'D', 'D', ' ', 'I', ' ', 'V'] ++ natChars reg
  | .AddReg r1 r2 =>
      ['A', 'D', 'D', ' ', 'V'] ++ (natChars r1 ++ (' ' :: 'V' :: natChars r2))
  | .SetReg r1 r2 =>
      ['L', 'D', ' ', 'V'] ++ (natChars r1 ++ (' ' :: 'V' :: natChars r2))
  | .OrReg r1 r2 =>
      ['O', 'R', ' ', 'V'] ++ (natChars r1 ++ (' ' :: 'V' :: natChars r2))
  | .AndReg r1 r2 =>
      ['A', 'N', 'D', ' ', 'V'] ++ (natChars r1 ++ (' ' :: 'V' :: natChars r2))
  | .XorReg r1 r2 =>
      ['X', 'O', 'R', ' ', 'V'] ++ (natChars r1 ++ (' ' :: 'V' :: natChars r2))
  | .SubReg r1 r2 =>
      ['S', 'U', 'B', ' ', 'V'] ++ (natChars r1 ++ (' ' :: 'V' :: natChars r2))
  | .Rsh r1 => ['R', 'S', 'H', ' ', 'V'] ++ natChars r1
  | .SubFrom r1 r2 =>
      ['S', 'U', 'B', 'N', ' ', 'V'] ++ (natChars r1 ++ (' ' :: 'V' :: natChars r2))
  | .Lsh r1 => ['L', 'S', 'H', ' ', 'V'] ++ natChars r1
  | .SetMemPtr imm => ['L', 'D', ' ', 'I', ' '] ++ natChars imm
  | .JumpOffset imm => ['J', 'P', ' ', 'V', '0', ' '] ++ natChars imm
  | .Rand reg imm =>
      ['R', 'N', 'D', ' ', 'V'] ++ (natChars reg ++ (' ' :: natChars imm))
  | .Draw x y n =>
      ['D', 'R', 'W', ' ', 'V'] ++
        (natChars x ++ (' ' :: 'V' :: (natChars y ++ (' ' :: natChars n))))
  | .SkipKeyPressed reg => ['S', 'K', 'P', ' ', 'V'] ++ natChars reg
  | .SkipKeyNotPressed reg => ['S', 'K', 'N', 'P', ' ', 'V'] ++ natChars reg
  | .GetDelay reg => ['L', 'D', ' ', 'V'] ++ (natChars reg ++ [' ', 'D', 'T'])
  | .WaitForKey reg => ['L', 'D', ' ', 'V'] ++ (natChars reg ++ [' ', 'K'])
  | .SetDelay reg => ['L', 'D', ' ', 'D', 'T', ' ', 'V'] ++ natChars reg
  | .SetSound reg => ['L', 'D', ' ', 'S', 'T', ' ', 'V'] ++ natChars reg
  | .SetChar reg => ['L', 'D', ' ', 'F', ' ', 'V'] ++ natChars reg
  | .BCD reg => ['L', 'D', ' ', 'B', ' ', 'V'] ++ natChars reg
  | .RegDump reg => ['L', 'D', ' ', '[', 'I', ']', ' ', 'V'] ++ natChars reg
  | .RegLoad reg => ['L', 'D', ' ', 'V'] ++ (natChars reg ++ [' ', '[', 'I', ']'])

/-- Rust's `str::split(char::is_whitespace)`: splits at every whitespace
character, keeping empty segments. -/
def splitWs : List Char → List (List Char)
  | [] => [[]]
  | c :: cs =>
      if c.isWhitespace then [] :: splitWs cs
      else
        match splitWs cs with
        | p :: ps => (c :: p) :: ps
        | [] => [[c]]

/-- `get_arg!` from `src/instructions.rs`: fetch the part at `index`,
strip a leading `v` when present, and parse the rest as a decimal number
of the value's type (`bound` is 255 for `u8`/`Reg` fields, 65535 for
`u16`/`Addr` fields).  A missing part or unparsable numeral is an error
(`none`). -/
def getArg (parts : List (List Char)) (index bound : Nat) : Option Nat :=
  match parts.get? index with
  | none => none
  | some t =>
      let t2 := if t.head? = some 'v' then t.tail else t
      match parseDigits t2 with
      | some n => if n ≤ bound then some n else none
      | none => none

/-- The dispatch of `Instruction::from_mnemonic` over the whitespace-split
parts of the lowercased text (`src/instructions.rs` lines 159-261).
Places where the Rust code indexes `mnemonic_parts` directly (and would
panic on a missing part) are modelled as `none`; no theorem exercises
them. -/
def fromParts (parts : List (List Char)) : Option Instruction :=
  (parts.get? 0).bind (fun cmd =>
    if cmd = ['c', 'l', 's'] then some .ClearScreen
    else if cmd = ['r', 'e', 't'] then some .Ret
    else if cmd = ['n', 'o', 'p'] then some .Nop
    else if cmd = ['j', 'p'] then
      (if parts.length = 1 then (getArg parts 1 65535).map .Jump
       else (getArg parts 2 65535).map .JumpOffset)
    else if cmd = ['c', 'a', 'l', 'l'] then (getArg parts 1 65535).map .Call
    else if cmd = ['s', 'e'] then
      (parts.get? 2).bind (fun p2 =>
        if p2.head? = some 'V' then
          (getArg parts 1 255).bind (fun a =>
            (getArg parts 2 255).map (fun b => .SkipEqReg a b))
        else
          (getArg parts 1 255).bind (fun a =>
            (getArg parts 2 255).map (fun b => .SkipEqImm a b)))
    else if cmd = ['s', 'n', 'e'] then
      (parts.get? 2).bind (fun p2 =>
        if p2.head? = some 'V' then
          (getArg parts 1 255).bind (fun a =>
            (getArg parts 2 255).map (fun b => .SkipNeReg a b))
        else
          (getArg parts 1 255).bind (fun a =>
            (getArg parts 2 255).map (fun b => .SkipNeImm a b)))
    else if cmd = ['l', 'd'] then
      (parts.get? 1).bind (fun p1 =>
        if p1 = ['i'] then (getArg parts 2 65535).map .SetMemPtr
        else if p1 = ['[', 'i', ']'] then (getArg parts 2 255).map .RegDump
        else if p1 = ['d', 't'] then (getArg parts 2 255).map .SetDelay
        else if p1 = ['s', 't'] then (getArg parts 2 255).map .SetSound
        else if p1 = ['f'] then (getArg parts 2 255).map .SetChar
        else if p1 = ['b'] then (getArg parts 2 255).map .BCD
        else
          (parts.get? 2).bind (fun p2 =>
            if p2 = ['d', 't'] then (getArg parts 1 255).map .GetDelay
            else if p2 = ['k'] then (getArg parts 1 255).map .WaitForKey
            else if p2 = ['[', 'i', ']'] then (getArg parts 1 255).map .RegLoad
            else if p2.head? = some 'v' then
              (getArg parts 1 255).bind (fun a =>
                (getArg parts 2 255).map (fun b => .SetReg a b))
            else
              (getArg parts 1 255).bind (fun a =>
                (getArg parts 2 255).map (fun b => .SetImm a b))))
    else if cmd = ['a', 'd', 'd'] then
      (parts.get? 1).bind (fun p1 =>
        if p1 = ['I'] then (getArg parts 1 255).map .AddMemPtr
        else
          (parts.get? 2).bind (fun p2 =>
            if p2.head? = some 'V' then
              (getArg parts 1 255).bind (fun a =>
                (getArg parts 2 255).map (fun b => .AddReg a b))
            else
              (getArg parts 1 255).bind (fun a =>
                (getArg parts 2 255).map (fun b => .AddImm a b))))
    else if cmd = ['o', 'r'] then
      (getArg parts 1 255).bind (fun a =>
        (getArg parts 2 255).map (fun b => .OrReg a b))
    else if cmd = ['a', 'n', 'd'] then
      (getArg parts 1 255).bind (fun a =>
        (getArg parts 2 255).map (fun b => .AndReg a b))
    else if cmd = ['x', 'o', 'r'] then
      (getArg parts 1 255).bind (fun a =>
        (getArg parts 2 255).map (fun b => .XorReg a b))
    else if cmd = ['s', 'u', 'b'] then
      (getArg parts 1 255).bind (fun a =>
        (getArg parts 2 255).map (fun b => .SubReg a b))
    else if cmd = ['r', 's', 'h'] then (getArg parts 1 255).map .Rsh
    else if cmd = ['s', 'u', 'b', 'n'] then
      (getArg parts 1 255).bind (fun a =>
        (getArg parts 2 255).map (fun b => .SubFrom a b))
    else if cmd = ['l', 's', 'h'] then (getArg parts 1 255).map .Lsh
    else if cmd = ['r', 'n', 'd'] then
      (getArg parts 1 255).bind (fun a =>
        (getArg parts 2 255).map (fun b => .Rand a b))
    else if cmd = ['d', 'r', 'w'] then
      (getArg parts 1 255).bind (fun a =>
        (getArg parts 2 255).bind (fun b =>
          (getArg parts 3 255).map (fun c => .Draw a b c)))
    else if cmd = ['s', 'k', 'p'] then (getArg parts 1 255).map .SkipKeyPressed
    else if cmd = ['s', 'k', 'n', 'p'] then
      (getArg parts 1 255).map .SkipKeyNotPressed
    else none)

/-- `Instruction::from_mnemonic` from `src/instructions.rs`: lowercase the
text, split on whitespace, dispatch on the parts. -/
def from_mnemonic (mnemonic : List Char) : Option Instruction :=
  fromParts (splitWs (mnemonic.map asciiLower))

end Chip8.Instruction

namespace Chip8.Instruction

/-! Correctness of the decimal print/parse pair and of whitespace
splitting, used for the mnemonic round-trip. -/

/-- The ten ASCII digit characters. -/
def digitChars : List Char := (List.range 10).map (fun d => Char.ofNat (48 + d))

private lemma digitChar_mem (d : Nat) : digitChar d ∈ digitChars := by
  unfold digitChar
  split_ifs <;> decide

private lemma digitChar_val (d : Nat) (hd : d < 10) :
    isDigitChar (digitChar d) = true ∧ digitVal (digitChar d) = d := by
  interval_cases d <;> exact ⟨by decide, by decide⟩

private lemma natCharsAux_zero (fuel : Nat) : natCharsAux fuel 0 = [] := by
  cases fuel <;> rfl

private lemma natCharsAux_chars :
    ∀ fuel n, ∀ c ∈ natCharsAux fuel n, c ∈ digitChars := by
  intro fuel
  induction fuel with
  | zero => intro n c hc; simp [natCharsAux] at hc
  | succ m ih =>
    intro n c hc
    unfold natCharsAux at hc
    by_cases hn : n = 0
    · simp [hn] at hc
    · rw [if_neg hn] at hc
      rcases List.mem_append.mp hc with h | h
      · exact ih _ c h
      · simp at h
        subst h
        exact digitChar_mem _

private lemma natChars_chars (n : Nat) : ∀ c ∈ natChars n, c ∈ digitChars := by
  intro c hc
  unfold natChars at hc
  by_cases hn : n = 0
  · rw [if_pos hn] at hc
    simp at hc
    subst hc
    decide
  · rw [if_neg hn] at hc
    exact natCharsAux_chars n n c hc

private lemma parseDigitsGo_append (xs ys : List Char) :
    ∀ acc, parseDigitsGo (xs ++ ys) acc
      = (parseDigitsGo xs acc).bind (fun a => parseDigitsGo ys a) := by
  induction xs with
  | nil => intro acc; rfl
  | cons c cs ih =>
    intro acc
    by_cases hc : isDigitChar c = true
    · show (if isDigitChar c = true then
          parseDigitsGo (cs ++ ys) (acc * 10 + digitVal c) else none) = _
      rw [if_pos hc, ih]
      show _ = (if isDigitChar c = true then
          parseDigitsGo cs (acc * 10 + digitVal c) else none).bind _
      rw [if_pos hc]
    · show (if isDigitChar c = true then
          parseDigitsGo (cs ++ ys) (acc * 10 + digitVal c) else none) = _
      rw [if_neg hc]
      show _ = (if isDigitChar c = true then
          parseDigitsGo cs (acc * 10 + digitVal c) else none).bind _
      rw [if_neg hc]
      rfl

private lemma parse_natCharsAux :
    ∀ fuel n acc, n ≤ fuel →
      ∃ k, parseDigitsGo (natCharsAux fuel n) acc = some (acc * 10 ^ k + n) := by
  intro fuel
  induction fuel with
  | zero =>
    intro n acc hn
    refine ⟨0, ?_⟩
    have : n = 0 := by omega
    subst this
    simp [natCharsAux, parseDigitsGo]
  | succ m ih =>
    intro n acc hn
    by_cases hzero : n = 0
    · subst hzero
      exact ⟨0, by simp [natCharsAux_zero, parseDigitsGo]⟩
    · unfold natCharsAux
      rw [if_neg hzero, parseDigitsGo_append]
      obtain ⟨k, hk⟩ := ih (n / 10) acc (by omega)
      rw [hk]
      refine ⟨k + 1, ?_⟩
      show parseDigitsGo [digitChar (n % 10)] (acc * 10 ^ k + n / 10) = _
      unfold parseDigitsGo parseDigitsGo
      rw [if_pos (digitChar_val (n % 10) (by omega)).1,
        (digitChar_val (n % 10) (by omega)).2]
      have hmod := Nat.div_add_mod n 10
      have hpow : (10 : Nat) ^ (k + 1) = 10 ^ k * 10 := by ring
      refine congrArg some ?_
      rw [hpow]
      ring_nf
      omega

private lemma natChars_ne_nil (n : Nat) : natChars n ≠ [] := by
  unfold natChars
  by_cases hn : n = 0
  · simp [hn]
  · rw [if_neg hn]
    obtain ⟨m, rfl⟩ : ∃ m, n = m + 1 := ⟨n - 1, by omega⟩
    unfold natCharsAux
    rw [if_neg hn]
    simp

private lemma parse_natChars (n : Nat) : parseDigits (natChars n) = some n := by
  by_cases hn : n = 0
  · subst hn; decide
  · have hne := natChars_ne_nil n
    obtain ⟨c, cs, hccs⟩ : ∃ c cs, natChars n = c :: cs := by
      cases h : natChars n with
      | nil => exact absurd h hne
      | cons c cs => exact ⟨c, cs, rfl⟩
    have hgo : parseDigits (natChars n) = parseDigitsGo (natChars n) 0 := by
      rw [hccs]; rfl
    rw [hgo]
    have : natChars n = natCharsAux n n := by unfold natChars; rw [if_neg hn]
    rw [this]
    obtain ⟨k, hk⟩ := parse_natCharsAux n n 0 (le_refl n)
    rw [hk]
    simp

end Chip8.Instruction

namespace Chip8.Instruction

private lemma splitWs_single (t : List Char)
    (h : ∀ c ∈ t, c.isWhitespace = false) : splitWs t = [t] := by
  induction t with
  | nil => rfl
  | cons c cs ih =>
    show splitWs (c :: cs) = _
    conv_lhs => unfold splitWs
    rw [if_neg (by simp [h c (by simp)])]
    rw [ih (fun d hd => h d (by simp [hd]))]

private lemma splitWs_sep (t rest : List Char)
    (h : ∀ c ∈ t, c.isWhitespace = false) :
    splitWs (t ++ ' ' :: rest) = t :: splitWs rest := by
  induction t with
  | nil =>
    show splitWs (' ' :: rest) = _
    conv_lhs => unfold splitWs
    rw [if_pos (by decide)]
  | cons c cs ih =>
    show splitWs (c :: (cs ++ ' ' :: rest)) = _
    conv_lhs => unfold splitWs
    rw [if_neg (by simp [h c (by simp)])]
    rw [ih (fun d hd => h d (by simp [hd]))]

private lemma digitChars_not_ws : ∀ c ∈ digitChars, c.isWhitespace = false := by
  decide

private lemma natChars_not_ws (n : Nat) :
    ∀ c ∈ natChars n, c.isWhitespace = false :=
  fun c hc => digitChars_not_ws c (natChars_chars n c hc)

private lemma vtok_not_ws (n : Nat) :
    ∀ c ∈ 'v' :: natChars n, c.isWhitespace = false := by
  intro c hc
  rcases List.mem_cons.mp hc with h | h
  · subst h; decide
  · exact natChars_not_ws n c h

private lemma lower_natChars (n : Nat) :
    (natChars n).map asciiLower = natChars n := by
  apply List.map_congr_left ?_ |>.trans (List.map_id _)
  intro c hc
  have := natChars_chars n c hc
  fin_cases this <;> decide

private lemma natChars_ne_cons (n : Nat) (c : Char) (cs : List Char)
    (hc : c ∉ digitChars) : ¬ (natChars n = c :: cs) := by
  intro h
  exact hc (natChars_chars n c (h ▸ List.mem_cons_self c cs))

private lemma natChars_head_not (n : Nat) (c : Char) (hc : c ∉ digitChars) :
    ¬ ((natChars n).head? = some c) := by
  intro h
  cases hn : natChars n with
  | nil => rw [hn] at h; simp at h
  | cons d rest =>
    have hd : d ∈ digitChars := natChars_chars n d (hn ▸ List.mem_cons_self d rest)
    rw [hn] at h
    simp at h
    exact hc (h ▸ hd)

private lemma cons_ne_cons {a b : Char} (as bs : List Char) (h : ¬ a = b) :
    ¬ (a :: as = b :: bs) := by
  intro he
  injection he with h1 _
  exact h h1

private lemma getArg_vtok (parts : List (List Char)) (idx bound r : Nat)
    (h : parts.get? idx = some ('v' :: natChars r)) (hb : r ≤ bound) :
    getArg parts idx bound = some r := by
  unfold getArg
  rw [h]
  show (match parseDigits (if ('v' :: natChars r).head? = some 'v'
        then ('v' :: natChars r).tail else 'v' :: natChars r) with
      | some n => if n ≤ bound then some n else none
      | none => none) = some r
  rw [if_pos (show ('v' :: natChars r).head? = some 'v' from rfl),
    List.tail_cons, parse_natChars]
  show (if r ≤ bound then some r else none) = some r
  rw [if_pos hb]

private lemma getArg_num (parts : List (List Char)) (idx bound v : Nat)
    (h : parts.get? idx = some (natChars v)) (hb : v ≤ bound) :
    getArg parts idx bound = some v := by
  unfold getArg
  rw [h]
  show (match parseDigits (if (natChars v).head? = some 'v'
        then (natChars v).tail else natChars v) with
      | some n => if n ≤ bound then some n else none
      | none => none) = some v
  rw [if_neg (natChars_head_not v 'v' (by decide)), parse_natChars]
  show (if v ≤ bound then some v else none) = some v
  rw [if_pos hb]

end Chip8.Instruction

namespace Chip8.Instruction

private lemma mn_clearScreen : from_mnemonic (instrToChars (.ClearScreen)) = some (.ClearScreen) := by
  decide

private lemma mn_ret : from_mnemonic (instrToChars (.Ret)) = some (.Ret) := by
  decide

private lemma mn_nop : from_mnemonic (instrToChars (.Nop)) = some (.Nop) := by
  decide

private lemma mn_call (a : Nat) (ha : a ≤ 65535) :
    from_mnemonic (instrToChars (.Call a)) = some (.Call a) := by
  have hl : (instrToChars (.Call a)).map asciiLower
      = ['c','a','l','l'] ++ (' ' :: ('v' :: natChars a)) := by
    simp only [instrToChars, List.map_append, List.map_cons, List.map_nil,
      lower_natChars]
    rfl
  have hs : splitWs (['c','a','l','l'] ++ (' ' :: ('v' :: natChars a)))
      = [['c','a','l','l'], 'v' :: natChars a] := by
    rw [splitWs_sep _ _ (by decide), splitWs_single _ (vtok_not_ws a)]
  unfold from_mnemonic
  rw [hl, hs]
  unfold fromParts
  rw [show ([['c','a','l','l'], 'v' :: natChars a] : List (List Char)).get? 0
      = some ['c','a','l','l'] from rfl, Option.some_bind]
  beta_reduce
  rw [if_neg (show ¬((['c','a','l','l'] : List Char) = ['c','l','s']) by decide),
    if_neg (show ¬((['c','a','l','l'] : List Char) = ['r','e','t']) by decide),
    if_neg (show ¬((['c','a','l','l'] : List Char) = ['n','o','p']) by decide),
    if_neg (show ¬((['c','a','l','l'] : List Char) = ['j','p']) by decide),
    if_pos (show (['c','a','l','l'] : List Char) = ['c','a','l','l'] from rfl)]
  rw [getArg_vtok [['c','a','l','l'], 'v' :: natChars a] 1 65535 a rfl ha, Option.map_some']

private lemma mn_rsh (a : Nat) (ha : a ≤ 255) :
    from_mnemonic (instrToChars (.Rsh a)) = some (.Rsh a) := by
  have hl : (instrToChars (.Rsh a)).map asciiLower
      = ['r','s','h'] ++ (' ' :: ('v' :: natChars a)) := by
    simp only [instrToChars, List.map_append, List.map_cons, List.map_nil,
      lower_natChars]
    rfl
  have hs : splitWs (['r','s','h'] ++ (' ' :: ('v' :: natChars a)))
      = [['r','s','h'], 'v' :: natChars a] := by
    rw [splitWs_sep _ _ (by decide), splitWs_single _ (vtok_not_ws a)]
  unfold from_mnemonic
  rw [hl, hs]
  unfold fromParts
  rw [show ([['r','s','h'], 'v' :: natChars a] : List (List Char)).get? 0
      = some ['r','s','h'] from rfl, Option.some_bind]
  beta_reduce
  rw [if_neg (show ¬((['r','s','h'] : List Char) = ['c','l','s']) by decide),
    if_neg (show ¬((['r','s','h'] : List Char) = ['r','e','t']) by decide),
    if_neg (show ¬((['r','s','h'] : List Char) = ['n','o','p']) by decide),
    if_neg (show ¬((['r','s','h'] : List Char) = ['j','p']) by decide),
    if_neg (show ¬((['r','s','h'] : List Char) = ['c','a','l','l']) by decide),
    if_neg (show ¬((['r','s','h'] : List Char) = ['s','e']) by decide),
    if_neg (show ¬((['r','s','h'] : List Char) = ['s','n','e']) by decide),
    if_neg (show ¬((['r','s','h'] : List Char) = ['l','d']) by decide),
    if_neg (show ¬((['r','s','h'] : List Char) = ['a','d','d']) by decide),
    if_neg (show ¬((['r','s','h'] : List Char) = ['o','r']) by decide),
    if_neg (show ¬((['r','s','h'] : List Char) = ['a','n','d']) by decide),
    if_neg (show ¬((['r','s','h'] : List Char) = ['x','o','r']) by decide),
    if_neg (show ¬((['r','s','h'] : List Char) = ['s','u','b']) by decide),
    if_pos (show (['r','s','h'] : List Char) = ['r','s','h'] from rfl)]
  rw [getArg_vtok [['r','s','h'], 'v' :: natChars a] 1 255 a rfl ha, Option.map_some']

private lemma mn_lsh (a : Nat) (ha : a ≤ 255) :
    from_mnemonic (instrToChars (.Lsh a)) = some (.Lsh a) := by
  have hl : (instrToChars (.Lsh a)).map asciiLower
      = ['l','s','h'] ++ (' ' :: ('v' :: natChars a)) := by
    simp only [instrToChars, List.map_append, List.map_cons, List.map_nil,
      lower_natChars]
    rfl
  have hs : splitWs (['l','s','h'] ++ (' ' :: ('v' :: natChars a)))
      = [['l','s','h'], 'v' :: natChars a] := by
    rw [splitWs_sep _ _ (by decide), splitWs_single _ (vtok_not_ws a)]
  unfold from_mnemonic
  rw [hl, hs]
  unfold fromParts
  rw [show ([['l','s','h'], 'v' :: natChars a] : List (List Char)).get? 0
      = some ['l','s','h'] from rfl, Option.some_bind]
  beta_reduce
  rw [if_neg (show ¬((['l','s','h'] : List Char) = ['c','l','s']) by decide),
    if_neg (show ¬((['l','s','h'] : List Char) = ['r','e','t']) by decide),
    if_neg (show ¬((['l','s','h'] : List Char) = ['n','o','p']) by decide),
    if_neg (show ¬((['l','s','h'] : List Char) = ['j','p']) by decide),
    if_neg (show ¬((['l','s','h'] : List Char) = ['c','a','l','l']) by decide),
    if_neg (show ¬((['l','s','h'] : List Char) = ['s','e']) by decide),
    if_neg (show ¬((['l','s','h'] : List Char) = ['s','n','e']) by decide),
    if_neg (show ¬((['l','s','h'] : List Char) = ['l','d']) by decide),
    if_neg (show ¬((['l','s','h'] : List Char) = ['a','d','d']) by decide),
    if_neg (show ¬((['l','s','h'] : List Char) = ['o','r']) by decide),
    if_neg (show ¬((['l','s','h'] : List Char) = ['a','n','d']) by decide),
    if_neg (show ¬((['l','s','h'] : List Char) = ['x','o','r']) by decide),
    if_neg (show ¬((['l','s','h'] : List Char) = ['s','u','b']) by decide),
    if_neg (show ¬((['l','s','h'] : List Char) = ['r','s','h']) by decide),
    if_neg (show ¬((['l','s','h'] : List Char) = ['s','u','b','n']) by decide),
    if_pos (show (['l','s','h'] : List Char) = ['l','s','h'] from rfl)]
  rw [getArg_vtok [['l','s','h'], 'v' :: natChars a] 1 255 a rfl ha, Option.map_some']

private lemma mn_skipKeyPressed (a : Nat) (ha : a ≤ 255) :
    from_mnemonic (instrToChars (.SkipKeyPressed a)) = some (.SkipKeyPressed a) := by
  have hl : (instrToChars (.SkipKeyPressed a)).map asciiLower
      = ['s','k','p'] ++ (' ' :: ('v' :: natChars a)) := by
    simp only [instrToChars, List.map_append, List.map_cons, List.map_nil,
      lower_natChars]
    rfl
  have hs : splitWs (['s','k','p'] ++ (' ' :: ('v' :: natChars a)))
      = [['s','k','p'], 'v' :: natChars a] := by
    rw [splitWs_sep _ _ (by decide), splitWs_single _ (vtok_not_ws a)]
  unfold from_mnemonic
  rw [hl, hs]
  unfold fromParts
  rw [show ([['s','k','p'], 'v' :: natChars a] : List (List Char)).get? 0
      = some ['s','k','p'] from rfl, Option.some_bind]
  beta_reduce
  rw [if_neg (show ¬((['s','k','p'] : List Char) = ['c','l','s']) by decide),
    if_neg (show ¬((['s','k','p'] : List Char) = ['r','e','t']) by decide),
    if_neg (show ¬((['s','k','p'] : List Char) = ['n','o','p']) by decide),
    if_neg (show ¬((['s','k','p'] : List Char) = ['j','p']) by decide),
    if_neg (show ¬((['s','k','p'] : List Char) = ['c','a','l','l']) by decide),
    if_neg (show ¬((['s','k','p'] : List Char) = ['s','e']) by decide),
    if_neg (show ¬((['s','k','p'] : List Char) = ['s','n','e']) by decide),
    if_neg (show ¬((['s','k','p'] : List Char) = ['l','d']) by decide),
    if_neg (show ¬((['s','k','p'] : List Char) = ['a','d','d']) by decide),
    if_neg (show ¬((['s','k','p'] : List Char) = ['o','r']) by decide),
    if_neg (show ¬((['s','k','p'] : List Char) = ['a','n','d']) by decide),
    if_neg (show ¬((['s','k','p'] : List Char) = ['x','o','r']) by decide),
    if_neg (show ¬((['s','k','p'] : List Char) = ['s','u','b']) by decide),
    if_neg (show ¬((['s','k','p'] : List Char) = ['r','s','h']) by decide),
    if_neg (show ¬((['s','k','p'] : List Char) = ['s','u','b','n']) by decide),
    if_neg (show ¬((['s','k','p'] : List Char) = ['l','s','h']) by decide),
    if_neg (show ¬((['s','k','p'] : List Char) = ['r','n','d']) by decide),
    if_neg (show ¬((['s','k','p'] : List Char) = ['d','r','w']) by decide),
    if_pos (show (['s','k','p'] : List Char) = ['s','k','p'] from rfl)]
  rw [getArg_vtok [['s','k','p'], 'v' :: natChars a] 1 255 a rfl ha, Option.map_some']

private lemma mn_skipKeyNotPressed (a : Nat) (ha : a ≤ 255) :
    from_mnemonic (instrToChars (.SkipKeyNotPressed a)) = some (.SkipKeyNotPressed a) := by
  have hl : (instrToChars (.SkipKeyNotPressed a)).map asciiLower
      = ['s','k','n','p'] ++ (' ' :: ('v' :: natChars a)) := by
    simp only [instrToChars, List.map_append, List.map_cons, List.map_nil,
      lower_natChars]
    rfl
  have hs : splitWs (['s','k','n','p'] ++ (' ' :: ('v' :: natChars a)))
      = [['s','k','n','p'], 'v' :: natChars a] := by
    rw [splitWs_sep _ _ (by decide), splitWs_single _ (vtok_not_ws a)]
  unfold from_mnemonic
  rw [hl, hs]
  unfold fromParts
  rw [show ([['s','k','n','p'], 'v' :: natChars a] : List (List Char)).get? 0
      = some ['s','k','n','p'] from rfl, Option.some_bind]
  beta_reduce
  rw [if_neg (show ¬((['s','k','n','p'] : List Char) = ['c','l','s']) by decide),
    if_neg (show ¬((['s','k','n','p'] : List Char) = ['r','e','t']) by decide),
    if_neg (show ¬((['s','k','n','p'] : List Char) = ['n','o','p']) by decide),
    if_neg (show ¬((['s','k','n','p'] : List Char) = ['j','p']) by decide),
    if_neg (show ¬((['s','k','n','p'] : List Char) = ['c','a','l','l']) by decide),
    if_neg (show ¬((['s','k','n','p'] : List Char) = ['s','e']) by decide),
    if_neg (show ¬((['s','k','n','p'] : List Char) = ['s','n','e']) by decide),
    if_neg (show ¬((['s','k','n','p'] : List Char) = ['l','d']) by decide),
    if_neg (show ¬((['s','k','n','p'] : List Char) = ['a','d','d']) by decide),
    if_neg (show ¬((['s','k','n','p'] : List Char) = ['o','r']) by decide),
    if_neg (show ¬((['s','k','n','p'] : List Char) = ['a','n','d']) by decide),
    if_neg (show ¬((['s','k','n','p'] : List Char) = ['x','o','r']) by decide),
    if_neg (show ¬((['s','k','n','p'] : List Char) = ['s','u','b']) by decide),
    if_neg (show ¬((['s','k','n','p'] : List Char) = ['r','s','h']) by decide),
    if_neg (show ¬((['s','k','n','p'] : List Char) = ['s','u','b','n']) by decide),
    if_neg (show ¬((['s','k','n','p'] : List Char) = ['l','s','h']) by decide),
    if_neg (show ¬((['s','k','n','p'] : List Char) = ['r','n','d']) by decide),
    if_neg (show ¬((['s','k','n','p'] : List Char) = ['d','r','w']) by decide),
    if_neg (show ¬((['s','k','n','p'] : List Char) = ['s','k','p']) by decide),
    if_pos (show (['s','k','n','p'] : List Char) = ['s','k','n','p'] from rfl)]
  rw [getArg_vtok [['s','k','n','p'], 'v' :: natChars a] 1 255 a rfl ha, Option.map_some']

private lemma mn_orReg (a b : Nat) (ha : a ≤ 255) (hb : b ≤ 255) :
    from_mnemonic (instrToChars (.OrReg a b)) = some (.OrReg a b) := by
  have hl : (instrToChars (.OrReg a b)).map asciiLower
      = ['o','r'] ++ (' ' :: ('v' :: natChars a ++ (' ' :: ('v' :: natChars b)))) := by
    simp only [instrToChars, List.map_append, List.map_cons, List.map_nil,
      lower_natChars]
    rfl
  have hs : splitWs (['o','r'] ++ (' ' :: ('v' :: natChars a ++ (' ' :: ('v' :: natChars b)))))
      = [['o','r'], 'v' :: natChars a, 'v' :: natChars b] := by
    rw [splitWs_sep _ _ (by decide), splitWs_sep _ _ (vtok_not_ws a), splitWs_single _ (vtok_not_ws b)]
  unfold from_mnemonic
  rw [hl, hs]
  unfold fromParts
  rw [show ([['o','r'], 'v' :: natChars a, 'v' :: natChars b] : List (List Char)).get? 0
      = some ['o','r'] from rfl, Option.some_bind]
  beta_reduce
  rw [if_neg (show ¬((['o','r'] : List Char) = ['c','l','s']) by decide),
    if_neg (show ¬((['o','r'] : List Char) = ['r','e','t']) by decide),
    if_neg (show ¬((['o','r'] : List Char) = ['n','o','p']) by decide),
    if_neg (show ¬((['o','r'] : List Char) = ['j','p']) by decide),
    if_neg (show ¬((['o','r'] : List Char) = ['c','a','l','l']) by decide),
    if_neg (show ¬((['o','r'] : List Char) = ['s','e']) by decide),
    if_neg (show ¬((['o','r'] : List Char) = ['s','n','e']) by decide),
    if_neg (show ¬((['o','r'] : List Char) = ['l','d']) by decide),
    if_neg (show ¬((['o','r'] : List Char) = ['a','d','d']) by decide),
    if_pos (show (['o','r'] : List Char) = ['o','r'] from rfl)]
  rw [getArg_vtok [['o','r'], 'v' :: natChars a, 'v' :: natChars b] 1 255 a rfl ha, Option.some_bind]
  beta_reduce
  rw [getArg_vtok [['o','r'], 'v' :: natChars a, 'v' :: natChars b] 2 255 b rfl hb, Option.map_some']

private lemma mn_andReg (a b : Nat) (ha : a ≤ 255) (hb : b ≤ 255) :
    from_mnemonic (instrToChars (.AndReg a b)) = some (.AndReg a b) := by
  have hl : (instrToChars (.AndReg a b)).map asciiLower
      = ['a','n','d'] ++ (' ' :: ('v' :: natChars a ++ (' ' :: ('v' :: natChars b)))) := by
    simp only [instrToChars, List.map_append, List.map_cons, List.map_nil,
      lower_natChars]
    rfl
  have hs : splitWs (['a','n','d'] ++ (' ' :: ('v' :: natChars a ++ (' ' :: ('v' :: natChars b)))))
      = [['a','n','d'], 'v' :: natChars a, 'v' :: natChars b] := by
    rw [splitWs_sep _ _ (by decide), splitWs_sep _ _ (vtok_not_ws a), splitWs_single _ (vtok_not_ws b)]
  unfold from_mnemonic
  rw [hl, hs]
  unfold fromParts
  rw [show ([['a','n','d'], 'v' :: natChars a, 'v' :: natChars b] : List (List Char)).get? 0
      = some ['a','n','d'] from rfl, Option.some_bind]
  beta_reduce
  rw [if_neg (show ¬((['a','n','d'] : List Char) = ['c','l','s']) by decide),
    if_neg (show ¬((['a','n','d'] : List Char) = ['r','e','t']) by decide),
    if_neg (show ¬((['a','n','d'] : List Char) = ['n','o','p']) by decide),
    if_neg (show ¬((['a','n','d'] : List Char) = ['j','p']) by decide),
    if_neg (show ¬((['a','n','d'] : List Char) = ['c','a','l','l']) by decide),
    if_neg (show ¬((['a','n','d'] : List Char) = ['s','e']) by decide),
    if_neg (show ¬((['a','n','d'] : List Char) = ['s','n','e']) by decide),
    if_neg (show ¬((['a','n','d'] : List Char) = ['l','d']) by decide),
    if_neg (show ¬((['a','n','d'] : List Char) = ['a','d','d']) by decide),
    if_neg (show ¬((['a','n','d'] : List Char) = ['o','r']) by decide),
    if_pos (show (['a','n','d'] : List Char) = ['a','n','d'] from rfl)]
  rw [getArg_vtok [['a','n','d'], 'v' :: natChars a, 'v' :: natChars b] 1 255 a rfl ha, Option.some_bind]
  beta_reduce
  rw [getArg_vtok [['a','n','d'], 'v' :: natChars a, 'v' :: natChars b] 2 255 b rfl hb, Option.map_some']

private lemma mn_xorReg (a b : Nat) (ha : a ≤ 255) (hb : b ≤ 255) :
    from_mnemonic (instrToChars (.XorReg a b)) = some (.XorReg a b) := by
  have hl : (instrToChars (.XorReg a b)).map asciiLower
      = ['x','o','r'] ++ (' ' :: ('v' :: natChars a ++ (' ' :: ('v' :: natChars b)))) := by
    simp only [instrToChars, List.map_append, List.map_cons, List.map_nil,
      lower_natChars]
    rfl
  have hs : splitWs (['x','o','r'] ++ (' ' :: ('v' :: natChars a ++ (' ' :: ('v' :: natChars b)))))
      = [['x','o','r'], 'v' :: natChars a, 'v' :: natChars b] := by
    rw [splitWs_sep _ _ (by decide), splitWs_sep _ _ (vtok_not_ws a), splitWs_single _ (vtok_not_ws b)]
  unfold from_mnemonic
  rw [hl, hs]
  unfold fromParts
  rw [show ([['x','o','r'], 'v' :: natChars a, 'v' :: natChars b] : List (List Char)).get? 0
      = some ['x','o','r'] from rfl, Option.some_bind]
  beta_reduce
  rw [if_neg (show ¬((['x','o','r'] : List Char) = ['c','l','s']) by decide),
    if_neg (show ¬((['x','o','r'] : List Char) = ['r','e','t']) by decide),
    if_neg (show ¬((['x','o','r'] : List Char) = ['n','o','p']) by decide),
    if_neg (show ¬((['x','o','r'] : List Char) = ['j','p']) by decide),
    if_neg (show ¬((['x','o','r'] : List Char) = ['c','a','l','l']) by decide),
    if_neg (show ¬((['x','o','r'] : List Char) = ['s','e']) by decide),
    if_neg (show ¬((['x','o','r'] : List Char) = ['s','n','e']) by decide),
    if_neg (show ¬((['x','o','r'] : List Char) = ['l','d']) by decide),
    if_neg (show ¬((['x','o','r'] : List Char) = ['a','d','d']) by decide),
    if_neg (show ¬((['x','o','r'] : List Char) = ['o','r']) by decide),
    if_neg (show ¬((['x','o','r'] : List Char) = ['a','n','d']) by decide),
    if_pos (show (['x','o','r'] : List Char) = ['x','o','r'] from rfl)]
  rw [getArg_vtok [['x','o','r'], 'v' :: natChars a, 'v' :: natChars b] 1 255 a rfl ha, Option.some_bind]
  beta_reduce
  rw [getArg_vtok [['x','o','r'], 'v' :: natChars a, 'v' :: natChars b] 2 255 b rfl hb, Option.map_some']

private lemma mn_subReg (a b : Nat) (ha : a ≤ 255) (hb : b ≤ 255) :
    from_mnemonic (instrToChars (.SubReg a b)) = some (.SubReg a b) := by
  have hl : (instrToChars (.SubReg a b)).map asciiLower
      = ['s','u','b'] ++ (' ' :: ('v' :: natChars a ++ (' ' :: ('v' :: natChars b)))) := by
    simp only [instrToChars, List.map_append, List.map_cons, List.map_nil,
      lower_natChars]
    rfl
  have hs : splitWs (['s','u','b'] ++ (' ' :: ('v' :: natChars a ++ (' ' :: ('v' :: natChars b)))))
      = [['s','u','b'], 'v' :: natChars a, 'v' :: natChars b] := by
    rw [splitWs_sep _ _ (by decide), splitWs_sep _ _ (vtok_not_ws a), splitWs_single _ (vtok_not_ws b)]
  unfold from_mnemonic
  rw [hl, hs]
  unfold fromParts
  rw [show ([['s','u','b'], 'v' :: natChars a, 'v' :: natChars b] : List (List Char)).get? 0
      = some ['s','u','b'] from rfl, Option.some_bind]
  beta_reduce
  rw [if_neg (show ¬((['s','u','b'] : List Char) = ['c','l','s']) by decide),
    if_neg (show ¬((['s','u','b'] : List Char) = ['r','e','t']) by decide),
    if_neg (show ¬((['s','u','b'] : List Char) = ['n','o','p']) by decide),
    if_neg (show ¬((['s','u','b'] : List Char) = ['j','p']) by decide),
    if_neg (show ¬((['s','u','b'] : List Char) = ['c','a','l','l']) by decide),
    if_neg (show ¬((['s','u','b'] : List Char) = ['s','e']) by decide),
    if_neg (show ¬((['s','u','b'] : List Char) = ['s','n','e']) by decide),
    if_neg (show ¬((['s','u','b'] : List Char) = ['l','d']) by decide),
    if_neg (show ¬((['s','u','b'] : List Char) = ['a','d','d']) by decide),
    if_neg (show ¬((['s','u','b'] : List Char) = ['o','r']) by decide),
    if_neg (show ¬((['s','u','b'] : List Char) = ['a','n','d']) by decide),
    if_neg (show ¬((['s','u','b'] : List Char) = ['x','o','r']) by decide),
    if_pos (show (['s','u','b'] : List Char) = ['s','u','b'] from rfl)]
  rw [getArg_vtok [['s','u','b'], 'v' :: natChars a, 'v' :: natChars b] 1 255 a rfl ha, Option.some_bind]
  beta_reduce
  rw [getArg_vtok [['s','u','b'], 'v' :: natChars a, 'v' :: natChars b] 2 255 b rfl hb, Option.map_some']

private lemma mn_subFrom (a b : Nat) (ha : a ≤ 255) (hb : b ≤ 255) :
    from_mnemonic (instrToChars (.SubFrom a b)) = some (.SubFrom a b) := by
  have hl : (instrToChars (.SubFrom a b)).map asciiLower
      = ['s','u','b','n'] ++ (' ' :: ('v' :: natChars a ++ (' ' :: ('v' :: natChars b)))) := by
    simp only [instrToChars, List.map_append, List.map_cons, List.map_nil,
      lower_natChars]
    rfl
  have hs : splitWs (['s','u','b','n'] ++ (' ' :: ('v' :: natChars a ++ (' ' :: ('v' :: natChars b)))))
      = [['s','u','b','n'], 'v' :: natChars a, 'v' :: natChars b] := by
    rw [splitWs_sep _ _ (by decide), splitWs_sep _ _ (vtok_not_ws a), splitWs_single _ (vtok_not_ws b)]
  unfold from_mnemonic
  rw [hl, hs]
  unfold fromParts
  rw [show ([['s','u','b','n'], 'v' :: natChars a, 'v' :: natChars b] : List (List Char)).get? 0
      = some ['s','u','b','n'] from rfl, Option.some_bind]
  beta_reduce
  rw [if_neg (show ¬((['s','u','b','n'] : List Char) = ['c','l','s']) by decide),
    if_neg (show ¬((['s','u','b','n'] : List Char) = ['r','e','t']) by decide),
    if_neg (show ¬((['s','u','b','n'] : List Char) = ['n','o','p']) by decide),
    if_neg (show ¬((['s','u','b','n'] : List Char) = ['j','p']) by decide),
    if_neg (show ¬((['s','u','b','n'] : List Char) = ['c','a','l','l']) by decide),
    if_neg (show ¬((['s','u','b','n'] : List Char) = ['s','e']) by decide),
    if_neg (show ¬((['s','u','b','n'] : List Char) = ['s','n','e']) by decide),
    if_neg (show ¬((['s','u','b','n'] : List Char) = ['l','d']) by decide),
    if_neg (show ¬((['s','u','b','n'] : List Char) = ['a','d','d']) by decide),
    if_neg (show ¬((['s','u','b','n'] : List Char) = ['o','r']) by decide),
    if_neg (show ¬((['s','u','b','n'] : List Char) = ['a','n','d']) by decide),
    if_neg (show ¬((['s','u','b','n'] : List Char) = ['x','o','r']) by decide),
    if_neg (show ¬((['s','u','b','n'] : List Char) = ['s','u','b']) by decide),
    if_neg (show ¬((['s','u','b','n'] : List Char) = ['r','s','h']) by decide),
    if_pos (show (['s','u','b','n'] : List Char) = ['s','u','b','n'] from rfl)]
  rw [getArg_vtok [['s','u','b','n'], 'v' :: natChars a, 'v' :: natChars b] 1 255 a rfl ha, Option.some_bind]
  beta_reduce
  rw [getArg_vtok [['s','u','b','n'], 'v' :: natChars a, 'v' :: natChars b] 2 255 b rfl hb, Option.map_some']

private lemma mn_skipEqImm (r i : Nat) (hr : r ≤ 255) (hi : i ≤ 255) :
    from_mnemonic (instrToChars (.SkipEqImm r i)) = some (.SkipEqImm r i) := by
  have hl : (instrToChars (.SkipEqImm r i)).map asciiLower
      = ['s','e'] ++ (' ' :: ('v' :: natChars r ++ (' ' :: (natChars i)))) := by
    simp only [instrToChars, List.map_append, List.map_cons, List.map_nil,
      lower_natChars]
    rfl
  have hs : splitWs (['s','e'] ++ (' ' :: ('v' :: natChars r ++ (' ' :: (natChars i)))))
      = [['s','e'], 'v' :: natChars r, natChars i] := by
    rw [splitWs_sep _ _ (by decide), splitWs_sep _ _ (vtok_not_ws r), splitWs_single _ (natChars_not_ws i)]
  unfold from_mnemonic
  rw [hl, hs]
  unfold fromParts
  rw [show ([['s','e'], 'v' :: natChars r, natChars i] : List (List Char)).get? 0
      = some ['s','e'] from rfl, Option.some_bind]
  beta_reduce
  rw [if_neg (show ¬((['s','e'] : List Char) = ['c','l','s']) by decide),
    if_neg (show ¬((['s','e'] : List Char) = ['r','e','t']) by decide),
    if_neg (show ¬((['s','e'] : List Char) = ['n','o','p']) by decide),
    if_neg (show ¬((['s','e'] : List Char) = ['j','p']) by decide),
    if_neg (show ¬((['s','e'] : List Char) = ['c','a','l','l']) by decide),
    if_pos (show (['s','e'] : List Char) = ['s','e'] from rfl)]
  rw [show ([['s','e'], 'v' :: natChars r, natChars i] : List (List Char)).get? 2
      = some (natChars i) from rfl, Option.some_bind]
  beta_reduce
  rw [if_neg (natChars_head_not i 'V' (by decide))]
  rw [getArg_vtok [['s','e'], 'v' :: natChars r, natChars i] 1 255 r rfl hr, Option.some_bind]
  beta_reduce
  rw [getArg_num [['s','e'], 'v' :: natChars r, natChars i] 2 255 i rfl hi, Option.map_some']

private lemma mn_skipNeImm (r i : Nat) (hr : r ≤ 255) (hi : i ≤ 255) :
    from_mnemonic (instrToChars (.SkipNeImm r i)) = some (.SkipNeImm r i) := by
  have hl : (instrToChars (.SkipNeImm r i)).map asciiLower
      = ['s','n','e'] ++ (' ' :: ('v' :: natChars r ++ (' ' :: (natChars i)))) := by
    simp only [instrToChars, List.map_append, List.map_cons, List.map_nil,
      lower_natChars]
    rfl
  have hs : splitWs (['s','n','e'] ++ (' ' :: ('v' :: natChars r ++ (' ' :: (natChars i)))))
      = [['s','n','e'], 'v' :: natChars r, natChars i] := by
    rw [splitWs_sep _ _ (by decide), splitWs_sep _ _ (vtok_not_ws r), splitWs_single _ (natChars_not_ws i)]
  unfold from_mnemonic
  rw [hl, hs]
  unfold fromParts
  rw [show ([['s','n','e'], 'v' :: natChars r, natChars i] : List (List Char)).get? 0
      = some ['s','n','e'] from rfl, Option.some_bind]
  beta_reduce
  rw [if_neg (show ¬((['s','n','e'] : List Char) = ['c','l','s']) by decide),
    if_neg (show ¬((['s','n','e'] : List Char) = ['r','e','t']) by decide),
    if_neg (show ¬((['s','n','e'] : List Char) = ['n','o','p']) by decide),
    if_neg (show ¬((['s','n','e'] : List Char) = ['j','p']) by decide),
    if_neg (show ¬((['s','n','e'] : List Char) = ['c','a','l','l']) by decide),
    if_neg (show ¬((['s','n','e'] : List Char) = ['s','e']) by decide),
    if_pos (show (['s','n','e'] : List Char) = ['s','n','e'] from rfl)]
  rw [show ([['s','n','e'], 'v' :: natChars r, natChars i] : List (List Char)).get? 2
      = some (natChars i) from rfl, Option.some_bind]
  beta_reduce
  rw [if_neg (natChars_head_not i 'V' (by decide))]
  rw [getArg_vtok [['s','n','e'], 'v' :: natChars r, natChars i] 1 255 r rfl hr, Option.some_bind]
  beta_reduce
  rw [getArg_num [['s','n','e'], 'v' :: natChars r, natChars i] 2 255 i rfl hi, Option.map_some']

private lemma mn_addImm (r i : Nat) (hr : r ≤ 255) (hi : i ≤ 255) :
    from_mnemonic (instrToChars (.AddImm r i)) = some (.AddImm r i) := by
  have hl : (instrToChars (.AddImm r i)).map asciiLower
      = ['a','d','d'] ++ (' ' :: ('v' :: natChars r ++ (' ' :: (natChars i)))) := by
    simp only [instrToChars, List.map_append, List.map_cons, List.map_nil,
      lower_natChars]
    rfl
  have hs : splitWs (['a','d','d'] ++ (' ' :: ('v' :: natChars r ++ (' ' :: (natChars i)))))
      = [['a','d','d'], 'v' :: natChars r, natChars i] := by
    rw [splitWs_sep _ _ (by decide), splitWs_sep _ _ (vtok_not_ws r), splitWs_single _ (natChars_not_ws i)]
  unfold from_mnemonic
  rw [hl, hs]
  unfold fromParts
  rw [show ([['a','d','d'], 'v' :: natChars r, natChars i] : List (List Char)).get? 0
      = some ['a','d','d'] from rfl, Option.some_bind]
  beta_reduce
  rw [if_neg (show ¬((['a','d','d'] : List Char) = ['c','l','s']) by decide),
    if_neg (show ¬((['a','d','d'] : List Char) = ['r','e','t']) by decide),
    if_neg (show ¬((['a','d','d'] : List Char) = ['n','o','p']) by decide),
    if_neg (show ¬((['a','d','d'] : List Char) = ['j','p']) by decide),
    if_neg (show ¬((['a','d','d'] : List Char) = ['c','a','l','l']) by decide),
    if_neg (show ¬((['a','d','d'] : List Char) = ['s','e']) by decide),
    if_neg (show ¬((['a','d','d'] : List Char) = ['s','n','e']) by decide),
    if_neg (show ¬((['a','d','d'] : List Char) = ['l','d']) by decide),
    if_pos (show (['a','d','d'] : List Char) = ['a','d','d'] from rfl)]
  rw [show ([['a','d','d'], 'v' :: natChars r, natChars i] : List (List Char)).get? 1
      = some ('v' :: natChars r) from rfl, Option.some_bind]
  beta_reduce
  rw [if_neg (cons_ne_cons _ _ (by decide))]
  rw [show ([['a','d','d'], 'v' :: natChars r, natChars i] : List (List Char)).get? 2
      = some (natChars i) from rfl, Option.some_bind]
  beta_reduce
  rw [if_neg (natChars_head_not i 'V' (by decide))]
  rw [getArg_vtok [['a','d','d'], 'v' :: natChars r, natChars i] 1 255 r rfl hr, Option.some_bind]
  beta_reduce
  rw [getArg_num [['a','d','d'], 'v' :: natChars r, natChars i] 2 255 i rfl hi, Option.map_some']

private lemma mn_rand (r i : Nat) (hr : r ≤ 255) (hi : i ≤ 255) :
    from_mnemonic (instrToChars (.Rand r i)) = some (.Rand r i) := by
  have hl : (instrToChars (.Rand r i)).map asciiLower
      = ['r','n','d'] ++ (' ' :: ('v' :: natChars r ++ (' ' :: (natChars i)))) := by
    simp only [instrToChars, List.map_append, List.map_cons, List.map_nil,
      lower_natChars]
    rfl
  have hs : splitWs (['r','n','d'] ++ (' ' :: ('v' :: natChars r ++ (' ' :: (natChars i)))))
      = [['r','n','d'], 'v' :: natChars r, natChars i] := by
    rw [splitWs_sep _ _ (by decide), splitWs_sep _ _ (vtok_not_ws r), splitWs_single _ (natChars_not_ws i)]
  unfold from_mnemonic
  rw [hl, hs]
  unfold fromParts
  rw [show ([['r','n','d'], 'v' :: natChars r, natChars i] : List (List Char)).get? 0
      = some ['r','n','d'] from rfl, Option.some_bind]
  beta_reduce
  rw [if_neg (show ¬((['r','n','d'] : List Char) = ['c','l','s']) by decide),
    if_neg (show ¬((['r','n','d'] : List Char) = ['r','e','t']) by decide),
    if_neg (show ¬((['r','n','d'] : List Char) = ['n','o','p']) by decide),
    if_neg (show ¬((['r','n','d'] : List Char) = ['j','p']) by decide),
    if_neg (show ¬((['r','n','d'] : List Char) = ['c','a','l','l']) by decide),
    if_neg (show ¬((['r','n','d'] : List Char) = ['s','e']) by decide),
    if_neg (show ¬((['r','n','d'] : List Char) = ['s','n','e']) by decide),
    if_neg (show ¬((['r','n','d'] : List Char) = ['l','d']) by decide),
    if_neg (show ¬((['r','n','d'] : List Char) = ['a','d','d']) by decide),
    if_neg (show ¬((['r','n','d'] : List Char) = ['o','r']) by decide),
    if_neg (show ¬((['r','n','d'] : List Char) = ['a','n','d']) by decide),
    if_neg (show ¬((['r','n','d'] : List Char) = ['x','o','r']) by decide),
    if_neg (show ¬((['r','n','d'] : List Char) = ['s','u','b']) by decide),
    if_neg (show ¬((['r','n','d'] : List Char) = ['r','s','h']) by decide),
    if_neg (show ¬((['r','n','d'] : List Char) = ['s','u','b','n']) by decide),
    if_neg (show ¬((['r','n','d'] : List Char) = ['l','s','h']) by decide),
    if_pos (show (['r','n','d'] : List Char) = ['r','n','d'] from rfl)]
  rw [getArg_vtok [['r','n','d'], 'v' :: natChars r, natChars i] 1 255 r rfl hr, Option.some_bind]
  beta_reduce
  rw [getArg_num [['r','n','d'], 'v' :: natChars r, natChars i] 2 255 i rfl hi, Option.map_some']

private lemma mn_setImm (r i : Nat) (hr : r ≤ 255) (hi : i ≤ 255) :
    from_mnemonic (instrToChars (.SetImm r i)) = some (.SetImm r i) := by
  have hl : (instrToChars (.SetImm r i)).map asciiLower
      = ['l','d'] ++ (' ' :: ('v' :: natChars r ++ (' ' :: (natChars i)))) := by
    simp only [instrToChars, List.map_append, List.map_cons, List.map_nil,
      lower_natChars]
    rfl
  have hs : splitWs (['l','d'] ++ (' ' :: ('v' :: natChars r ++ (' ' :: (natChars i)))))
      = [['l','d'], 'v' :: natChars r, natChars i] := by
    rw [splitWs_sep _ _ (by decide), splitWs_sep _ _ (vtok_not_ws r), splitWs_single _ (natChars_not_ws i)]
  unfold from_mnemonic
  rw [hl, hs]
  unfold fromParts
  rw [show ([['l','d'], 'v' :: natChars r, natChars i] : List (List Char)).get? 0
      = some ['l','d'] from rfl, Option.some_bind]
  beta_reduce
  rw [if_neg (show ¬((['l','d'] : List Char) = ['c','l','s']) by decide),
    if_neg (show ¬((['l','d'] : List Char) = ['r','e','t']) by decide),
    if_neg (show ¬((['l','d'] : List Char) = ['n','o','p']) by decide),
    if_neg (show ¬((['l','d'] : List Char) = ['j','p']) by decide),
    if_neg (show ¬((['l','d'] : List Char) = ['c','a','l','l']) by decide),
    if_neg (show ¬((['l','d'] : List Char) = ['s','e']) by decide),
    if_neg (show ¬((['l','d'] : List Char) = ['s','n','e']) by decide),
    if_pos (show (['l','d'] : List Char) = ['l','d'] from rfl)]
  rw [show ([['l','d'], 'v' :: natChars r, natChars i] : List (List Char)).get? 1
      = some ('v' :: natChars r) from rfl, Option.some_bind]
  beta_reduce
  rw [if_neg (cons_ne_cons _ _ (by decide)), if_neg (cons_ne_cons _ _ (by decide)), if_neg (cons_ne_cons _ _ (by decide)), if_neg (cons_ne_cons _ _ (by decide)), if_neg (cons_ne_cons _ _ (by decide)), if_neg (cons_ne_cons _ _ (by decide))]
  rw [show ([['l','d'], 'v' :: natChars r, natChars i] : List (List Char)).get? 2
      = some (natChars i) from rfl, Option.some_bind]
  beta_reduce
  rw [if_neg (natChars_ne_cons i 'd' _ (by decide)),
    if_neg (natChars_ne_cons i 'k' _ (by decide)),
    if_neg (natChars_ne_cons i '[' _ (by decide)),
    if_neg (natChars_head_not i 'v' (by decide))]
  rw [getArg_vtok [['l','d'], 'v' :: natChars r, natChars i] 1 255 r rfl hr, Option.some_bind]
  beta_reduce
  rw [getArg_num [['l','d'], 'v' :: natChars r, natChars i] 2 255 i rfl hi, Option.map_some']

private lemma mn_setReg (a b : Nat) (ha : a ≤ 255) (hb : b ≤ 255) :
    from_mnemonic (instrToChars (.SetReg a b)) = some (.SetReg a b) := by
  have hl : (instrToChars (.SetReg a b)).map asciiLower
      = ['l','d'] ++ (' ' :: ('v' :: natChars a ++ (' ' :: ('v' :: natChars b)))) := by
    simp only [instrToChars, List.map_append, List.map_cons, List.map_nil,
      lower_natChars]
    rfl
  have hs : splitWs (['l','d'] ++ (' ' :: ('v' :: natChars a ++ (' ' :: ('v' :: natChars b)))))
      = [['l','d'], 'v' :: natChars a, 'v' :: natChars b] := by
    rw [splitWs_sep _ _ (by decide), splitWs_sep _ _ (vtok_not_ws a), splitWs_single _ (vtok_not_ws b)]
  unfold from_mnemonic
  rw [hl, hs]
  unfold fromParts
  rw [show ([['l','d'], 'v' :: natChars a, 'v' :: natChars b] : List (List Char)).get? 0
      = some ['l','d'] from rfl, Option.some_bind]
  beta_reduce
  rw [if_neg (show ¬((['l','d'] : List Char) = ['c','l','s']) by decide),
    if_neg (show ¬((['l','d'] : List Char) = ['r','e','t']) by decide),
    if_neg (show ¬((['l','d'] : List Char) = ['n','o','p']) by decide),
    if_neg (show ¬((['l','d'] : List Char) = ['j','p']) by decide),
    if_neg (show ¬((['l','d'] : List Char) = ['c','a','l','l']) by decide),
    if_neg (show ¬((['l','d'] : List Char) = ['s','e']) by decide),
    if_neg (show ¬((['l','d'] : List Char) = ['s','n','e']) by decide),
    if_pos (show (['l','d'] : List Char) = ['l','d'] from rfl)]
  rw [show ([['l','d'], 'v' :: natChars a, 'v' :: natChars b] : List (List Char)).get? 1
      = some ('v' :: natChars a) from rfl, Option.some_bind]
  beta_reduce
  rw [if_neg (cons_ne_cons _ _ (by decide)), if_neg (cons_ne_cons _ _ (by decide)), if_neg (cons_ne_cons _ _ (by decide)), if_neg (cons_ne_cons _ _ (by decide)), if_neg (cons_ne_cons _ _ (by decide)), if_neg (cons_ne_cons _ _ (by decide))]
  rw [show ([['l','d'], 'v' :: natChars a, 'v' :: natChars b] : List (List Char)).get? 2
      = some ('v' :: natChars b) from rfl, Option.some_bind]
  beta_reduce
  rw [if_neg (cons_ne_cons _ _ (by decide)),
    if_neg (cons_ne_cons _ _ (by decide)),
    if_neg (cons_ne_cons _ _ (by decide)),
    if_pos (show ('v' :: natChars b).head? = some 'v' from rfl)]
  rw [getArg_vtok [['l','d'], 'v' :: natChars a, 'v' :: natChars b] 1 255 a rfl ha, Option.some_bind]
  beta_reduce
  rw [getArg_vtok [['l','d'], 'v' :: natChars a, 'v' :: natChars b] 2 255 b rfl hb, Option.map_some']

private lemma mn_getDelay (r : Nat) (hr : r ≤ 255) :
    from_mnemonic (instrToChars (.GetDelay r)) = some (.GetDelay r) := by
  have hl : (instrToChars (.GetDelay r)).map asciiLower
      = ['l','d'] ++ (' ' :: ('v' :: natChars r ++ (' ' :: (['d','t'])))) := by
    simp only [instrToChars, List.map_append, List.map_cons, List.map_nil,
      lower_natChars]
    rfl
  have hs : splitWs (['l','d'] ++ (' ' :: ('v' :: natChars r ++ (' ' :: (['d','t'])))))
      = [['l','d'], 'v' :: natChars r, ['d','t']] := by
    rw [splitWs_sep _ _ (by decide), splitWs_sep _ _ (vtok_not_ws r), splitWs_single _ (by decide)]
  unfold from_mnemonic
  rw [hl, hs]
  unfold fromParts
  rw [show ([['l','d'], 'v' :: natChars r, ['d','t']] : List (List Char)).get? 0
      = some ['l','d'] from rfl, Option.some_bind]
  beta_reduce
  rw [if_neg (show ¬((['l','d'] : List Char) = ['c','l','s']) by decide),
    if_neg (show ¬((['l','d'] : List Char) = ['r','e','t']) by decide),
    if_neg (show ¬((['l','d'] : List Char) = ['n','o','p']) by decide),
    if_neg (show ¬((['l','d'] : List Char) = ['j','p']) by decide),
    if_neg (show ¬((['l','d'] : List Char) = ['c','a','l','l']) by decide),
    if_neg (show ¬((['l','d'] : List Char) = ['s','e']) by decide),
    if_neg (show ¬((['l','d'] : List Char) = ['s','n','e']) by decide),
    if_pos (show (['l','d'] : List Char) = ['l','d'] from rfl)]
  rw [show ([['l','d'], 'v' :: natChars r, ['d','t']] : List (List Char)).get? 1
      = some ('v' :: natChars r) from rfl, Option.some_bind]
  beta_reduce
  rw [if_neg (cons_ne_cons _ _ (by decide)), if_neg (cons_ne_cons _ _ (by decide)), if_neg (cons_ne_cons _ _ (by decide)), if_neg (cons_ne_cons _ _ (by decide)), if_neg (cons_ne_cons _ _ (by decide)), if_neg (cons_ne_cons _ _ (by decide))]
  rw [show ([['l','d'], 'v' :: natChars r, ['d','t']] : List (List Char)).get? 2
      = some (['d','t']) from rfl, Option.some_bind]
  beta_reduce
  rw [if_pos (show (['d','t'] : List Char) = ['d','t'] from rfl)]
  rw [getArg_vtok [['l','d'], 'v' :: natChars r, ['d','t']] 1 255 r rfl hr, Option.map_some']

private lemma mn_waitForKey (r : Nat) (hr : r ≤ 255) :
    from_mnemonic (instrToChars (.WaitForKey r)) = some (.WaitForKey r) := by
  have hl : (instrToChars (.WaitForKey r)).map asciiLower
      = ['l','d'] ++ (' ' :: ('v' :: natChars r ++ (' ' :: (['k'])))) := by
    simp only [instrToChars, List.map_append, List.map_cons, List.map_nil,
      lower_natChars]
    rfl
  have hs : splitWs (['l','d'] ++ (' ' :: ('v' :: natChars r ++ (' ' :: (['k'])))))
      = [['l','d'], 'v' :: natChars r, ['k']] := by
    rw [splitWs_sep _ _ (by decide), splitWs_sep _ _ (vtok_not_ws r), splitWs_single _ (by decide)]
  unfold from_mnemonic
  rw [hl, hs]
  unfold fromParts
  rw [show ([['l','d'], 'v' :: natChars r, ['k']] : List (List Char)).get? 0
      = some ['l','d'] from rfl, Option.some_bind]
  beta_reduce
  rw [if_neg (show ¬((['l','d'] : List Char) = ['c','l','s']) by decide),
    if_neg (show ¬((['l','d'] : List Char) = ['r','e','t']) by decide),
    if_neg (show ¬((['l','d'] : List Char) = ['n','o','p']) by decide),
    if_neg (show ¬((['l','d'] : List Char) = ['j','p']) by decide),
    if_neg (show ¬((['l','d'] : List Char) = ['c','a','l','l']) by decide),
    if_neg (show ¬((['l','d'] : List Char) = ['s','e']) by decide),
    if_neg (show ¬((['l','d'] : List Char) = ['s','n','e']) by decide),
    if_pos (show (['l','d'] : List Char) = ['l','d'] from rfl)]
  rw [show ([['l','d'], 'v' :: natChars r, ['k']] : List (List Char)).get? 1
      = some ('v' :: natChars r) from rfl, Option.some_bind]
  beta_reduce
  rw [if_neg (cons_ne_cons _ _ (by decide)), if_neg (cons_ne_cons _ _ (by decide)), if_neg (cons_ne_cons _ _ (by decide)), if_neg (cons_ne_cons _ _ (by decide)), if_neg (cons_ne_cons _ _ (by decide)), if_neg (cons_ne_cons _ _ (by decide))]
  rw [show ([['l','d'], 'v' :: natChars r, ['k']] : List (List Char)).get? 2
      = some (['k']) from rfl, Option.some_bind]
  beta_reduce
  rw [if_neg (show ¬((['k'] : List Char) = ['d','t']) by decide), if_pos (show (['k'] : List Char) = ['k'] from rfl)]
  rw [getArg_vtok [['l','d'], 'v' :: natChars r, ['k']] 1 255 r rfl hr, Option.map_some']

private lemma mn_regLoad (r : Nat) (hr : r ≤ 255) :
    from_mnemonic (instrToChars (.RegLoad r)) = some (.RegLoad r) := by
  have hl : (instrToChars (.RegLoad r)).map asciiLower
      = ['l','d'] ++ (' ' :: ('v' :: natChars r ++ (' ' :: (['[','i',']'])))) := by
    simp only [instrToChars, List.map_append, List.map_cons, List.map_nil,
      lower_natChars]
    rfl
  have hs : splitWs (['l','d'] ++ (' ' :: ('v' :: natChars r ++ (' ' :: (['[','i',']'])))))
      = [['l','d'], 'v' :: natChars r, ['[','i',']']] := by
    rw [splitWs_sep _ _ (by decide), splitWs_sep _ _ (vtok_not_ws r), splitWs_single _ (by decide)]
  unfold from_mnemonic
  rw [hl, hs]
  unfold fromParts
  rw [show ([['l','d'], 'v' :: natChars r, ['[','i',']']] : List (List Char)).get? 0
      = some ['l','d'] from rfl, Option.some_bind]
  beta_reduce
  rw [if_neg (show ¬((['l','d'] : List Char) = ['c','l','s']) by decide),
    if_neg (show ¬((['l','d'] : List Char) = ['r','e','t']) by decide),
    if_neg (show ¬((['l','d'] : List Char) = ['n','o','p']) by decide),
    if_neg (show ¬((['l','d'] : List Char) = ['j','p']) by decide),
    if_neg (show ¬((['l','d'] : List Char) = ['c','a','l','l']) by decide),
    if_neg (show ¬((['l','d'] : List Char) = ['s','e']) by decide),
    if_neg (show ¬((['l','d'] : List Char) = ['s','n','e']) by decide),
    if_pos (show (['l','d'] : List Char) = ['l','d'] from rfl)]
  rw [show ([['l','d'], 'v' :: natChars r, ['[','i',']']] : List (List Char)).get? 1
      = some ('v' :: natChars r) from rfl, Option.some_bind]
  beta_reduce
  rw [if_neg (cons_ne_cons _ _ (by decide)), if_neg (cons_ne_cons _ _ (by decide)), if_neg (cons_ne_cons _ _ (by decide)), if_neg (cons_ne_cons _ _ (by decide)), if_neg (cons_ne_cons _ _ (by decide)), if_neg (cons_ne_cons _ _ (by decide))]
  rw [show ([['l','d'], 'v' :: natChars r, ['[','i',']']] : List (List Char)).get? 2
      = some (['[','i',']']) from rfl, Option.some_bind]
  beta_reduce
  rw [if_neg (show ¬((['[','i',']'] : List Char) = ['d','t']) by decide), if_neg (show ¬((['[','i',']'] : List Char) = ['k']) by decide), if_pos (show (['[','i',']'] : List Char) = ['[','i',']'] from rfl)]
  rw [getArg_vtok [['l','d'], 'v' :: natChars r, ['[','i',']']] 1 255 r rfl hr, Option.map_some']

private lemma mn_setMemPtr (a : Nat) (ha : a ≤ 65535) :
    from_mnemonic (instrToChars (.SetMemPtr a)) = some (.SetMemPtr a) := by
  have hl : (instrToChars (.SetMemPtr a)).map asciiLower
      = ['l','d'] ++ (' ' :: (['i'] ++ (' ' :: (natChars a)))) := by
    simp only [instrToChars, List.map_append, List.map_cons, List.map_nil,
      lower_natChars]
    rfl
  have hs : splitWs (['l','d'] ++ (' ' :: (['i'] ++ (' ' :: (natChars a)))))
      = [['l','d'], ['i'], natChars a] := by
    rw [splitWs_sep _ _ (by decide), splitWs_sep _ _ (by decide), splitWs_single _ (natChars_not_ws a)]
  unfold from_mnemonic
  rw [hl, hs]
  unfold fromParts
  rw [show ([['l','d'], ['i'], natChars a] : List (List Char)).get? 0
      = some ['l','d'] from rfl, Option.some_bind]
  beta_reduce
  rw [if_neg (show ¬((['l','d'] : List Char) = ['c','l','s']) by decide),
    if_neg (show ¬((['l','d'] : List Char) = ['r','e','t']) by decide),
    if_neg (show ¬((['l','d'] : List Char) = ['n','o','p']) by decide),
    if_neg (show ¬((['l','d'] : List Char) = ['j','p']) by decide),
    if_neg (show ¬((['l','d'] : List Char) = ['c','a','l','l']) by decide),
    if_neg (show ¬((['l','d'] : List Char) = ['s','e']) by decide),
    if_neg (show ¬((['l','d'] : List Char) = ['s','n','e']) by decide),
    if_pos (show (['l','d'] : List Char) = ['l','d'] from rfl)]
  rw [show ([['l','d'], ['i'], natChars a] : List (List Char)).get? 1
      = some (['i']) from rfl, Option.some_bind]
  beta_reduce
  rw [if_pos (show (['i'] : List Char) = ['i'] from rfl)]
  rw [getArg_num [['l','d'], ['i'], natChars a] 2 65535 a rfl ha, Option.map_some']

private lemma mn_regDump (a : Nat) (ha : a ≤ 255) :
    from_mnemonic (instrToChars (.RegDump a)) = some (.RegDump a) := by
  have hl : (instrToChars (.RegDump a)).map asciiLower
      = ['l','d'] ++ (' ' :: (['[','i',']'] ++ (' ' :: ('v' :: natChars a)))) := by
    simp only [instrToChars, List.map_append, List.map_cons, List.map_nil,
      lower_natChars]
    rfl
  have hs : splitWs (['l','d'] ++ (' ' :: (['[','i',']'] ++ (' ' :: ('v' :: natChars a)))))
      = [['l','d'], ['[','i',']'], 'v' :: natChars a] := by
    rw [splitWs_sep _ _ (by decide), splitWs_sep _ _ (by decide), splitWs_single _ (vtok_not_ws a)]
  unfold from_mnemonic
  rw [hl, hs]
  unfold fromParts
  rw [show ([['l','d'], ['[','i',']'], 'v' :: natChars a] : List (List Char)).get? 0
      = some ['l','d'] from rfl, Option.some_bind]
  beta_reduce
  rw [if_neg (show ¬((['l','d'] : List Char) = ['c','l','s']) by decide),
    if_neg (show ¬((['l','d'] : List Char) = ['r','e','t']) by decide),
    if_neg (show ¬((['l','d'] : List Char) = ['n','o','p']) by decide),
    if_neg (show ¬((['l','d'] : List Char) = ['j','p']) by decide),
    if_neg (show ¬((['l','d'] : List Char) = ['c','a','l','l']) by decide),
    if_neg (show ¬((['l','d'] : List Char) = ['s','e']) by decide),
    if_neg (show ¬((['l','d'] : List Char) = ['s','n','e']) by decide),
    if_pos (show (['l','d'] : List Char) = ['l','d'] from rfl)]
  rw [show ([['l','d'], ['[','i',']'], 'v' :: natChars a] : List (List Char)).get? 1
      = some (['[','i',']']) from rfl, Option.some_bind]
  beta_reduce
  rw [if_neg (show ¬((['[','i',']'] : List Char) = ['i']) by decide), if_pos (show (['[','i',']'] : List Char) = ['[','i',']'] from rfl)]
  rw [getArg_vtok [['l','d'], ['[','i',']'], 'v' :: natChars a] 2 255 a rfl ha, Option.map_some']

private lemma mn_setDelay (a : Nat) (ha : a ≤ 255) :
    from_mnemonic (instrToChars (.SetDelay a)) = some (.SetDelay a) := by
  have hl : (instrToChars (.SetDelay a)).map asciiLower
      = ['l','d'] ++ (' ' :: (['d','t'] ++ (' ' :: ('v' :: natChars a)))) := by
    simp only [instrToChars, List.map_append, List.map_cons, List.map_nil,
      lower_natChars]
    rfl
  have hs : splitWs (['l','d'] ++ (' ' :: (['d','t'] ++ (' ' :: ('v' :: natChars a)))))
      = [['l','d'], ['d','t'], 'v' :: natChars a] := by
    rw [splitWs_sep _ _ (by decide), splitWs_sep _ _ (by decide), splitWs_single _ (vtok_not_ws a)]
  unfold from_mnemonic
  rw [hl, hs]
  unfold fromParts
  rw [show ([['l','d'], ['d','t'], 'v' :: natChars a] : List (List Char)).get? 0
      = some ['l','d'] from rfl, Option.some_bind]
  beta_reduce
  rw [if_neg (show ¬((['l','d'] : List Char) = ['c','l','s']) by decide),
    if_neg (show ¬((['l','d'] : List Char) = ['r','e','t']) by decide),
    if_neg (show ¬((['l','d'] : List Char) = ['n','o','p']) by decide),
    if_neg (show ¬((['l','d'] : List Char) = ['j','p']) by decide),
    if_neg (show ¬((['l','d'] : List Char) = ['c','a','l','l']) by decide),
    if_neg (show ¬((['l','d'] : List Char) = ['s','e']) by decide),
    if_neg (show ¬((['l','d'] : List Char) = ['s','n','e']) by decide),
    if_pos (show (['l','d'] : List Char) = ['l','d'] from rfl)]
  rw [show ([['l','d'], ['d','t'], 'v' :: natChars a] : List (List Char)).get? 1
      = some (['d','t']) from rfl, Option.some_bind]
  beta_reduce
  rw [if_neg (show ¬((['d','t'] : List Char) = ['i']) by decide), if_neg (show ¬((['d','t'] : List Char) = ['[','i',']']) by decide), if_pos (show (['d','t'] : List Char) = ['d','t'] from rfl)]
  rw [getArg_vtok [['l','d'], ['d','t'], 'v' :: natChars a] 2 255 a rfl ha, Option.map_some']

private lemma mn_setSound (a : Nat) (ha : a ≤ 255) :
    from_mnemonic (instrToChars (.SetSound a)) = some (.SetSound a) := by
  have hl : (instrToChars (.SetSound a)).map asciiLower
      = ['l','d'] ++ (' ' :: (['s','t'] ++ (' ' :: ('v' :: natChars a)))) := by
    simp only [instrToChars, List.map_append, List.map_cons, List.map_nil,
      lower_natChars]
    rfl
  have hs : splitWs (['l','d'] ++ (' ' :: (['s','t'] ++ (' ' :: ('v' :: natChars a)))))
      = [['l','d'], ['s','t'], 'v' :: natChars a] := by
    rw [splitWs_sep _ _ (by decide), splitWs_sep _ _ (by decide), splitWs_single _ (vtok_not_ws a)]
  unfold from_mnemonic
  rw [hl, hs]
  unfold fromParts
  rw [show ([['l','d'], ['s','t'], 'v' :: natChars a] : List (List Char)).get? 0
      = some ['l','d'] from rfl, Option.some_bind]
  beta_reduce
  rw [if_neg (show ¬((['l','d'] : List Char) = ['c','l','s']) by decide),
    if_neg (show ¬((['l','d'] : List Char) = ['r','e','t']) by decide),
    if_neg (show ¬((['l','d'] : List Char) = ['n','o','p']) by decide),
    if_neg (show ¬((['l','d'] : List Char) = ['j','p']) by decide),
    if_neg (show ¬((['l','d'] : List Char) = ['c','a','l','l']) by decide),
    if_neg (show ¬((['l','d'] : List Char) = ['s','e']) by decide),
    if_neg (show ¬((['l','d'] : List Char) = ['s','n','e']) by decide),
    if_pos (show (['l','d'] : List Char) = ['l','d'] from rfl)]
  rw [show ([['l','d'], ['s','t'], 'v' :: natChars a] : List (List Char)).get? 1
      = some (['s','t']) from rfl, Option.some_bind]
  beta_reduce
  rw [if_neg (show ¬((['s','t'] : List Char) = ['i']) by decide), if_neg (show ¬((['s','t'] : List Char) = ['[','i',']']) by decide), if_neg (show ¬((['s','t'] : List Char) = ['d','t']) by decide), if_pos (show (['s','t'] : List Char) = ['s','t'] from rfl)]
  rw [getArg_vtok [['l','d'], ['s','t'], 'v' :: natChars a] 2 255 a rfl ha, Option.map_some']

private lemma mn_setChar (a : Nat) (ha : a ≤ 255) :
    from_mnemonic (instrToChars (.SetChar a)) = some (.SetChar a) := by
  have hl : (instrToChars (.SetChar a)).map asciiLower
      = ['l','d'] ++ (' ' :: (['f'] ++ (' ' :: ('v' :: natChars a)))) := by
    simp only [instrToChars, List.map_append, List.map_cons, List.map_nil,
      lower_natChars]
    rfl
  have hs : splitWs (['l','d'] ++ (' ' :: (['f'] ++ (' ' :: ('v' :: natChars a)))))
      = [['l','d'], ['f'], 'v' :: natChars a] := by
    rw [splitWs_sep _ _ (by decide), splitWs_sep _ _ (by decide), splitWs_single _ (vtok_not_ws a)]
  unfold from_mnemonic
  rw [hl, hs]
  unfold fromParts
  rw [show ([['l','d'], ['f'], 'v' :: natChars a] : List (List Char)).get? 0
      = some ['l','d'] from rfl, Option.some_bind]
  beta_reduce
  rw [if_neg (show ¬((['l','d'] : List Char) = ['c','l','s']) by decide),
    if_neg (show ¬((['l','d'] : List Char) = ['r','e','t']) by decide),
    if_neg (show ¬((['l','d'] : List Char) = ['n','o','p']) by decide),
    if_neg (show ¬((['l','d'] : List Char) = ['j','p']) by decide),
    if_neg (show ¬((['l','d'] : List Char) = ['c','a','l','l']) by decide),
    if_neg (show ¬((['l','d'] : List Char) = ['s','e']) by decide),
    if_neg (show ¬((['l','d'] : List Char) = ['s','n','e']) by decide),
    if_pos (show (['l','d'] : List Char) = ['l','d'] from rfl)]
  rw [show ([['l','d'], ['f'], 'v' :: natChars a] : List (List Char)).get? 1
      = some (['f']) from rfl, Option.some_bind]
  beta_reduce
  rw [if_neg (show ¬((['f'] : List Char) = ['i']) by decide), if_neg (show ¬((['f'] : List Char) = ['[','i',']']) by decide), if_neg (show ¬((['f'] : List Char) = ['d','t']) by decide), if_neg (show ¬((['f'] : List Char) = ['s','t']) by decide), if_pos (show (['f'] : List Char) = ['f'] from rfl)]
  rw [getArg_vtok [['l','d'], ['f'], 'v' :: natChars a] 2 255 a rfl ha, Option.map_some']

private lemma mn_bcd (a : Nat) (ha : a ≤ 255) :
    from_mnemonic (instrToChars (.BCD a)) = some (.BCD a) := by
  have hl : (instrToChars (.BCD a)).map asciiLower
      = ['l','d'] ++ (' ' :: (['b'] ++ (' ' :: ('v' :: natChars a)))) := by
    simp only [instrToChars, List.map_append, List.map_cons, List.map_nil,
      lower_natChars]
    rfl
  have hs : splitWs (['l','d'] ++ (' ' :: (['b'] ++ (' ' :: ('v' :: natChars a)))))
      = [['l','d'], ['b'], 'v' :: natChars a] := by
    rw [splitWs_sep _ _ (by decide), splitWs_sep _ _ (by decide), splitWs_single _ (vtok_not_ws a)]
  unfold from_mnemonic
  rw [hl, hs]
  unfold fromParts
  rw [show ([['l','d'], ['b'], 'v' :: natChars a] : List (List Char)).get? 0
      = some ['l','d'] from rfl, Option.some_bind]
  beta_reduce
  rw [if_neg (show ¬((['l','d'] : List Char) = ['c','l','s']) by decide),
    if_neg (show ¬((['l','d'] : List Char) = ['r','e','t']) by decide),
    if_neg (show ¬((['l','d'] : List Char) = ['n','o','p']) by decide),
    if_neg (show ¬((['l','d'] : List Char) = ['j','p']) by decide),
    if_neg (show ¬((['l','d'] : List Char) = ['c','a','l','l']) by decide),
    if_neg (show ¬((['l','d'] : List Char) = ['s','e']) by decide),
    if_neg (show ¬((['l','d'] : List Char) = ['s','n','e']) by decide),
    if_pos (show (['l','d'] : List Char) = ['l','d'] from rfl)]
  rw [show ([['l','d'], ['b'], 'v' :: natChars a] : List (List Char)).get? 1
      = some (['b']) from rfl, Option.some_bind]
  beta_reduce
  rw [if_neg (show ¬((['b'] : List Char) = ['i']) by decide), if_neg (show ¬((['b'] : List Char) = ['[','i',']']) by decide), if_neg (show ¬((['b'] : List Char) = ['d','t']) by decide), if_neg (show ¬((['b'] : List Char) = ['s','t']) by decide), if_neg (show ¬((['b'] : List Char) = ['f']) by decide), if_pos (show (['b'] : List Char) = ['b'] from rfl)]
  rw [getArg_vtok [['l','d'], ['b'], 'v' :: natChars a] 2 255 a rfl ha, Option.map_some']

private lemma mn_jumpOffset (a : Nat) (ha : a ≤ 65535) :
    from_mnemonic (instrToChars (.JumpOffset a)) = some (.JumpOffset a) := by
  have hl : (instrToChars (.JumpOffset a)).map asciiLower
      = ['j','p'] ++ (' ' :: (['v','0'] ++ (' ' :: (natChars a)))) := by
    simp only [instrToChars, List.map_append, List.map_cons, List.map_nil,
      lower_natChars]
    rfl
  have hs : splitWs (['j','p'] ++ (' ' :: (['v','0'] ++ (' ' :: (natChars a)))))
      = [['j','p'], ['v','0'], natChars a] := by
    rw [splitWs_sep _ _ (by decide), splitWs_sep _ _ (by decide), splitWs_single _ (natChars_not_ws a)]
  unfold from_mnemonic
  rw [hl, hs]
  unfold fromParts
  rw [show ([['j','p'], ['v','0'], natChars a] : List (List Char)).get? 0
      = some ['j','p'] from rfl, Option.some_bind]
  beta_reduce
  rw [if_neg (show ¬((['j','p'] : List Char) = ['c','l','s']) by decide),
    if_neg (show ¬((['j','p'] : List Char) = ['r','e','t']) by decide),
    if_neg (show ¬((['j','p'] : List Char) = ['n','o','p']) by decide),
    if_pos (show (['j','p'] : List Char) = ['j','p'] from rfl)]
  rw [if_neg (show ¬(([['j','p'], ['v','0'], natChars a] : List (List Char)).length = 1) by simp)]
  rw [getArg_num [['j','p'], ['v','0'], natChars a] 2 65535 a rfl ha, Option.map_some']

private lemma mn_draw (x y n : Nat) (hx : x ≤ 255) (hy2 : y ≤ 255) (hn : n ≤ 255) :
    from_mnemonic (instrToChars (.Draw x y n)) = some (.Draw x y n) := by
  have hl : (instrToChars (.Draw x y n)).map asciiLower
      = ['d','r','w'] ++ (' ' :: ('v' :: natChars x ++ (' ' :: ('v' :: natChars y ++ (' ' :: (natChars n)))))) := by
    simp only [instrToChars, List.map_append, List.map_cons, List.map_nil,
      lower_natChars]
    rfl
  have hs : splitWs (['d','r','w'] ++ (' ' :: ('v' :: natChars x ++ (' ' :: ('v' :: natChars y ++ (' ' :: (natChars n)))))))
      = [['d','r','w'], 'v' :: natChars x, 'v' :: natChars y, natChars n] := by
    rw [splitWs_sep _ _ (by decide), splitWs_sep _ _ (vtok_not_ws x), splitWs_sep _ _ (vtok_not_ws y), splitWs_single _ (natChars_not_ws n)]
  unfold from_mnemonic
  rw [hl, hs]
  unfold fromParts
  rw [show ([['d','r','w'], 'v' :: natChars x, 'v' :: natChars y, natChars n] : List (List Char)).get? 0
      = some ['d','r','w'] from rfl, Option.some_bind]
  beta_reduce
  rw [if_neg (show ¬((['d','r','w'] : List Char) = ['c','l','s']) by decide),
    if_neg (show ¬((['d','r','w'] : List Char) = ['r','e','t']) by decide),
    if_neg (show ¬((['d','r','w'] : List Char) = ['n','o','p']) by decide),
    if_neg (show ¬((['d','r','w'] : List Char) = ['j','p']) by decide),
    if_neg (show ¬((['d','r','w'] : List Char) = ['c','a','l','l']) by decide),
    if_neg (show ¬((['d','r','w'] : List Char) = ['s','e']) by decide),
    if_neg (show ¬((['d','r','w'] : List Char) = ['s','n','e']) by decide),
    if_neg (show ¬((['d','r','w'] : List Char) = ['l','d']) by decide),
    if_neg (show ¬((['d','r','w'] : List Char) = ['a','d','d']) by decide),
    if_neg (show ¬((['d','r','w'] : List Char) = ['o','r']) by decide),
    if_neg (show ¬((['d','r','w'] : List Char) = ['a','n','d']) by decide),
    if_neg (show ¬((['d','r','w'] : List Char) = ['x','o','r']) by decide),
    if_neg (show ¬((['d','r','w'] : List Char) = ['s','u','b']) by decide),
    if_neg (show ¬((['d','r','w'] : List Char) = ['r','s','h']) by decide),
    if_neg (show ¬((['d','r','w'] : List Char) = ['s','u','b','n']) by decide),
    if_neg (show ¬((['d','r','w'] : List Char) = ['l','s','h']) by decide),
    if_neg (show ¬((['d','r','w'] : List Char) = ['r','n','d']) by decide),
    if_pos (show (['d','r','w'] : List Char) = ['d','r','w'] from rfl)]
  rw [getArg_vtok [['d','r','w'], 'v' :: natChars x, 'v' :: natChars y, natChars n] 1 255 x rfl hx, Option.some_bind]
  beta_reduce
  rw [getArg_vtok [['d','r','w'], 'v' :: natChars x, 'v' :: natChars y, natChars n] 2 255 y rfl hy2, Option.some_bind]
  beta_reduce
  rw [getArg_num [['d','r','w'], 'v' :: natChars x, 'v' :: natChars y, natChars n] 3 255 n rfl hn, Option.map_some']

end Chip8.Instruction
namespace Chip8.Instruction

/-- The five variants whose printed mnemonic does not parse back to the
same instruction: `Jump` prints as `JMP`, which `from_mnemonic` does not
recognise; `SkipEqReg`/`SkipNeReg`/`AddReg` disambiguate on
`starts_with('V')` over already-lowercased text, so they re-parse as the
immediate variants; `AddMemPtr` compares against `"I"` over lowercased
text and then fails to parse `i` as a register number. -/
def mnemonicBad : Instruction → Bool
  | .Jump _ | .SkipEqReg _ _ | .SkipNeReg _ _ | .AddReg _ _
  | .AddMemPtr _ => true
  | _ => false

/-- Counterexample for C7 as stated: concrete instances of all five
failing variants.  `JMP V516` does not parse; `SE V1 V2` re-parses as
`SkipEqImm 1 2`; `SNE V1 V2` as `SkipNeImm 1 2`; `ADD V1 V2` as
`AddImm 1 2`; `ADD I V3` fails to parse. -/
theorem mnemonic_roundtrip_counterexample :
    from_mnemonic (instrToChars (Instruction.Jump 0x204))
        ≠ some (Instruction.Jump 0x204) ∧
      from_mnemonic (instrToChars (Instruction.SkipEqReg 1 2))
        = some (Instruction.SkipEqImm 1 2) ∧
      from_mnemonic (instrToChars (Instruction.SkipNeReg 1 2))
        = some (Instruction.SkipNeImm 1 2) ∧
      from_mnemonic (instrToChars (Instruction.AddReg 1 2))
        = some (Instruction.AddImm 1 2) ∧
      from_mnemonic (instrToChars (Instruction.AddMemPtr 3)) = none := by
  decide

/-- C7 amended: for every defined `Instruction` variant except `Jump`,
`SkipEqReg`, `SkipNeReg`, `AddReg` and `AddMemPtr`, printing the
instruction to its textual mnemonic and parsing that text back yields the
instruction: `from_mnemonic (to_string i) = Ok(i)`. -/
theorem mnemonic_roundtrip (i : Instruction) (hwf : wfFields i = true)
    (hbad : mnemonicBad i = false) :
    from_mnemonic (instrToChars i) = some i := by
  cases i with
  | ClearScreen => exact mn_clearScreen
  | Ret => exact mn_ret
  | Nop => exact mn_nop
  | Jump a => simp [mnemonicBad] at hbad
  | SkipEqReg a b => simp [mnemonicBad] at hbad
  | SkipNeReg a b => simp [mnemonicBad] at hbad
  | AddReg a b => simp [mnemonicBad] at hbad
  | AddMemPtr a => simp [mnemonicBad] at hbad
  | Call a =>
    simp only [wfFields, decide_eq_true_eq] at hwf
    exact mn_call a (by omega)
  | SkipEqImm r i =>
    simp only [wfFields, Bool.and_eq_true, decide_eq_true_eq] at hwf
    exact mn_skipEqImm r i (by omega) (by omega)
  | SkipNeImm r i =>
    simp only [wfFields, Bool.and_eq_true, decide_eq_true_eq] at hwf
    exact mn_skipNeImm r i (by omega) (by omega)
  | SetImm r i =>
    simp only [wfFields, Bool.and_eq_true, decide_eq_true_eq] at hwf
    exact mn_setImm r i (by omega) (by omega)
  | AddImm r i =>
    simp only [wfFields, Bool.and_eq_true, decide_eq_true_eq] at hwf
    exact mn_addImm r i (by omega) (by omega)
  | Rand r i =>
    simp only [wfFields, Bool.and_eq_true, decide_eq_true_eq] at hwf
    exact mn_rand r i (by omega) (by omega)
  | SetReg a b =>
    simp only [wfFields, Bool.and_eq_true, decide_eq_true_eq] at hwf
    exact mn_setReg a b (by omega) (by omega)
  | OrReg a b =>
    simp only [wfFields, Bool.and_eq_true, decide_eq_true_eq] at hwf
    exact mn_orReg a b (by omega) (by omega)
  | AndReg a b =>
    simp only [wfFields, Bool.and_eq_true, decide_eq_true_eq] at hwf
    exact mn_andReg a b (by omega) (by omega)
  | XorReg a b =>
    simp only [wfFields, Bool.and_eq_true, decide_eq_true_eq] at hwf
    exact mn_xorReg a b (by omega) (by omega)
  | SubReg a b =>
    simp only [wfFields, Bool.and_eq_true, decide_eq_true_eq] at hwf
    exact mn_subReg a b (by omega) (by omega)
  | SubFrom a b =>
    simp only [wfFields, Bool.and_eq_true, decide_eq_true_eq] at hwf
    exact mn_subFrom a b (by omega) (by omega)
  | Rsh a =>
    simp only [wfFields, decide_eq_true_eq] at hwf
    exact mn_rsh a (by omega)
  | Lsh a =>
    simp only [wfFields, decide_eq_true_eq] at hwf
    exact mn_lsh a (by omega)
  | SetMemPtr a =>
    simp only [wfFields, decide_eq_true_eq] at hwf
    exact mn_setMemPtr a (by omega)
  | JumpOffset a =>
    simp only [wfFields, decide_eq_true_eq] at hwf
    exact mn_jumpOffset a (by omega)
  | Draw x y n =>
    simp only [wfFields, Bool.and_eq_true, decide_eq_true_eq] at hwf
    exact mn_draw x y n (by omega) (by omega) (by omega)
  | SkipKeyPressed r =>
    simp only [wfFields, decide_eq_true_eq] at hwf
    exact mn_skipKeyPressed r (by omega)
  | SkipKeyNotPressed r =>
    simp only [wfFields, decide_eq_true_eq] at hwf
    exact mn_skipKeyNotPressed r (by omega)
  | GetDelay r =>
    simp only [wfFields, decide_eq_true_eq] at hwf
    exact mn_getDelay r (by omega)
  | WaitForKey r =>
    simp only [wfFields, decide_eq_true_eq] at hwf
    exact mn_waitForKey r (by omega)
  | SetDelay r =>
    simp only [wfFields, decide_eq_true_eq] at hwf
    exact mn_setDelay r (by omega)
  | SetSound r =>
    simp only [wfFields, decide_eq_true_eq] at hwf
    exact mn_setSound r (by omega)
  | SetChar r =>
    simp only [wfFields, decide_eq_true_eq] at hwf
    exact mn_setChar r (by omega)
  | BCD r =>
    simp only [wfFields, decide_eq_true_eq] at hwf
    exact mn_bcd r (by omega)
  | RegDump r =>
    simp only [wfFields, decide_eq_true_eq] at hwf
    exact mn_regDump r (by omega)
  | RegLoad r =>
    simp only [wfFields, decide_eq_true_eq] at hwf
    exact mn_regLoad r (by omega)

/-- Witness for C7's amended theorem at the concrete instruction
`SetImm 3 17` (`LD V3 17`). -/
theorem mnemonic_roundtrip_witness :
    wfFields (Instruction.SetImm 3 17) = true ∧
      mnemonicBad (Instruction.SetImm 3 17) = false ∧
      from_mnemonic (instrToChars (Instruction.SetImm 3 17))
        = some (Instruction.SetImm 3 17) :=
  ⟨by decide, by decide, mnemonic_roundtrip _ (by decide) (by decide)⟩

end Chip8.Instruction
